import Mathlib

/-!
VIACFBridge: vault eligibility, net role adapter, movement-mode bridge, animation driver.

A shallow embedding of `AVIACFCharacter` (VIACFCharacter.cpp / VIACFCharacter.h) and of
`UVIACFAnimInstance` (VIACFAnimInstance.cpp).

Conventions of the embedding.

* A C++ pointer member that may be null is an `Option`; dereferencing a null pointer is the
  `none` result of a function returning `Option`.
* Engine and plugin collaborators (character movement component, pawn vault component,
  skeletal mesh, FBIK function library) are not part of the repository.  What the code reads
  from them is a field of a snapshot record; what the code calls on them with an effect that
  the source does not show is a parameter (`CharacterEnv`, `AnimEnv`).
* Blueprint events raised by the code are appended to a call log carried in the state.
* `float` values are rationals.
-/

namespace VIACFBridge

/-! ## Engine types used by the source -/

/-- Net role of an actor on the local peer (engine enum `ENetRole`, without its `ROLE_MAX`
sentinel). -/
inductive ENetRole where
  | ROLE_None
  | ROLE_SimulatedProxy
  | ROLE_AutonomousProxy
  | ROLE_Authority
  deriving DecidableEq, Repr

/-- Numeric value of a role, used by the ordered comparison `GetLocalRole() > ROLE_SimulatedProxy`. -/
def ENetRole.toNat : ENetRole → Nat
  | .ROLE_None => 0
  | .ROLE_SimulatedProxy => 1
  | .ROLE_AutonomousProxy => 2
  | .ROLE_Authority => 3

/-- Network mode of the world (engine enum `ENetMode`). -/
inductive ENetMode where
  | NM_Standalone
  | NM_DedicatedServer
  | NM_ListenServer
  | NM_Client
  deriving DecidableEq, Repr

/-- Movement mode of the character movement component (engine enum `EMovementMode`). -/
inductive EMovementMode where
  | MOVE_None
  | MOVE_Walking
  | MOVE_NavWalking
  | MOVE_Falling
  | MOVE_Swimming
  | MOVE_Flying
  | MOVE_Custom
  deriving DecidableEq, Repr

/-- Three component vector (`FVector`), components as rationals. -/
structure FVector where
  X : ℚ
  Y : ℚ
  Z : ℚ
  deriving DecidableEq, Repr

/-- Tolerance constant `KINDA_SMALL_NUMBER` (1.e-4f), the default argument of `IsNearlyZero`. -/
def KINDA_SMALL_NUMBER : ℚ := 1 / 10000

/-- Test `FVector::IsNearlyZero()`: every component is within the default tolerance of zero. -/
def FVector.IsNearlyZero (v : FVector) : Bool :=
  decide (|v.X| ≤ KINDA_SMALL_NUMBER) && decide (|v.Y| ≤ KINDA_SMALL_NUMBER)
    && decide (|v.Z| ≤ KINDA_SMALL_NUMBER)

/-- Squared length `FVector::SizeSquared()`; a vector has unit length iff this is 1. -/
def FVector.SizeSquared (v : FVector) : ℚ :=
  v.X * v.X + v.Y * v.Y + v.Z * v.Z

/-- Names (`FName`). -/
abbrev FName := String

/-! ## Collaborator snapshots -/

/-- Snapshot of the character movement component as far as `AVIACFCharacter` reads it.
The four predicates are the results of the component's virtual `IsMovingOnGround()`,
`IsFalling()`, `IsSwimming()` and `IsCrouching()`; they are taken as given. -/
structure UCharacterMovementComponent where
  /-- Current `MovementMode`. -/
  MovementMode : EMovementMode
  /-- Result of `GetGroundMovementMode()`. -/
  GroundMovementMode : EMovementMode
  /-- Result of `IsMovingOnGround()`. -/
  IsMovingOnGround : Bool
  /-- Result of `IsFalling()`. -/
  IsFalling : Bool
  /-- Result of `IsSwimming()`. -/
  IsSwimming : Bool
  /-- Result of `IsCrouching()`. -/
  IsCrouching : Bool
  /-- Result of `GetGravityZ()`. -/
  GravityZ : ℚ
  /-- Result of `GetCurrentAcceleration()`. -/
  CurrentAcceleration : FVector
  deriving DecidableEq, Repr

/-- Modelled from the spec: `UCharacterMovementComponent::SetMovementMode` is engine code; the
spec (section 6) describes it as the movement collaborator's setter for the movement mode, so it
is the assignment of the mode. -/
def UCharacterMovementComponent.SetMovementMode (cm : UCharacterMovementComponent)
    (NewMovementMode : EMovementMode) : UCharacterMovementComponent :=
  { cm with MovementMode := NewMovementMode }

/-- Accessor `UCharacterMovementComponent::GetGroundMovementMode()`. -/
def UCharacterMovementComponent.GetGroundMovementMode (cm : UCharacterMovementComponent) :
    EMovementMode :=
  cm.GroundMovementMode

/-- Snapshot of the pawn vault component (`UVIPawnVaultComponent`) as far as the source reads
it. -/
structure UVIPawnVaultComponent where
  /-- Result of `VaultComponent->IsVaulting()`, the locally predicted vaulting state. -/
  IsVaulting : Bool
  bVaultAbilityInitialized : Bool
  bCanVaultFromGround : Bool
  bCanVaultFromFalling : Bool
  bCanVaultFromSwimming : Bool
  bCanVaultFromCrouching : Bool
  bPressedVault : Bool
  deriving DecidableEq, Repr

/-- Snapshot of the skeletal mesh component: whether `GetAnimInstance()` is non-null. -/
structure USkeletalMeshComponent where
  bHasAnimInstance : Bool
  deriving DecidableEq, Repr

/-- Replicated motion match point (`FVIRepMotionMatch`). -/
structure FVIRepMotionMatch where
  Location : FVector
  Direction : FVector
  deriving DecidableEq, Repr

/-- Sync point handed to the motion warping component. -/
structure FVIMotionWarpingSyncPoint where
  Name : FName
  Location : FVector
  Direction : FVector
  deriving DecidableEq, Repr

/-- Snapshot of the motion warping component: the sync points it holds. -/
structure UVIMotionWarpingComponent where
  SyncPoints : List FVIMotionWarpingSyncPoint
  deriving DecidableEq, Repr

/-- Calls from `AVIACFCharacter` into Blueprint events, in the order they are raised. -/
inductive CharacterCall where
  | OnStopVaultAbility
  deriving DecidableEq, Repr

/-! ## AVIACFCharacter -/

/-- State of an `AVIACFCharacter` together with the world facts its methods read. -/
structure AVIACFCharacter where
  /-- Result of `GetLocalRole()`. -/
  LocalRole : ENetRole
  /-- Result of `GetNetMode()`. -/
  NetMode : ENetMode
  /-- Result of `IsLocallyControlled()`. -/
  bLocallyControlled : Bool
  /-- Pointer member `VaultComponent`. -/
  VaultComponent : Option UVIPawnVaultComponent
  /-- Result of `GetCharacterMovement()`. -/
  CharacterMovement : Option UCharacterMovementComponent
  /-- Result of `GetMesh()`. -/
  Mesh : Option USkeletalMeshComponent
  /-- Pointer member `MotionWarping`. -/
  MotionWarping : Option UVIMotionWarpingComponent
  bRepIsVaulting : Bool
  bWasVaulting : Bool
  /-- Inherited `ACharacter::bPressedJump`. -/
  bPressedJump : Bool
  RepMotionMatch : FVIRepMotionMatch
  /-- Result of `GetActorForwardVector()`. -/
  ActorForwardVector : FVector
  /-- Blueprint events raised so far, oldest first. -/
  Calls : List CharacterCall
  deriving DecidableEq, Repr

/-- Engine inline `AActor::HasAuthority()`: the local role is `ROLE_Authority`. -/
def HasAuthority (s : AVIACFCharacter) : Bool :=
  decide (s.LocalRole = ENetRole.ROLE_Authority)

/-- Method `AVIACFCharacter::IsVaulting` (VIACFCharacter.cpp 184-199). -/
def IsVaulting (s : AVIACFCharacter) : Bool :=
  -- Simulated proxies use the value provided by server
  if s.LocalRole = ENetRole.ROLE_SimulatedProxy then
    s.bRepIsVaulting
  else
    -- Local and authority uses gameplay tags for a predicted result
    match s.VaultComponent with
    | some vc => vc.IsVaulting
    | none => false

/-- Method `AVIACFCharacter::GetVaultDirection_Implementation` (VIACFCharacter.cpp 201-211). -/
def GetVaultDirection (s : AVIACFCharacter) : FVector :=
  match s.CharacterMovement with
  | some cm =>
    -- Use input vector if available
    if !cm.CurrentAcceleration.IsNearlyZero then
      cm.CurrentAcceleration
    else
      -- Use character facing direction if not providing input
      s.ActorForwardVector
  | none => s.ActorForwardVector

/-- Method `AVIACFCharacter::CanVault_Implementation` (VIACFCharacter.cpp 213-270), with its
early returns in source order. -/
def CanVault (s : AVIACFCharacter) : Bool :=
  -- Vaulting must finish before starting another vault attempt
  if IsVaulting s then false
  else
    -- Invalid components
    match s.VaultComponent, s.CharacterMovement with
    | none, _ => false
    | some _, none => false
    | some vc, some cm =>
      -- Animation instance is required to play vault montage
      match s.Mesh with
      | none => false
      | some mesh =>
        if !mesh.bHasAnimInstance then false
        -- Authority not initialized
        else if HasAuthority s && !vc.bVaultAbilityInitialized then false
        -- Exit if character is in a state they cannot vault from
        else if cm.IsMovingOnGround || cm.IsFalling || cm.IsSwimming then
          if cm.IsMovingOnGround && !vc.bCanVaultFromGround then false
          else if cm.IsFalling && !vc.bCanVaultFromFalling then false
          else if cm.IsSwimming && !vc.bCanVaultFromSwimming then false
          -- Cannot vault while crouching
          else if !vc.bCanVaultFromCrouching && cm.IsCrouching then false
          -- Passed all conditions
          else true
        else false

/-- Reference definition of `CanVault`, following the wording of the specification:
not vaulting, vault component and movement collaborator present, mesh and animation instance
present, no authority or ability initialized, in at least one of the three modes, the flag of
every mode the actor is in is set, and not crouching with crouched vaulting disallowed. -/
def CanVaultSpec (s : AVIACFCharacter) : Prop :=
  IsVaulting s = false ∧
  ∃ vc cm mesh,
    s.VaultComponent = some vc ∧ s.CharacterMovement = some cm ∧
    s.Mesh = some mesh ∧ mesh.bHasAnimInstance = true ∧
    (HasAuthority s = false ∨ vc.bVaultAbilityInitialized = true) ∧
    (cm.IsMovingOnGround = true ∨ cm.IsFalling = true ∨ cm.IsSwimming = true) ∧
    (cm.IsMovingOnGround = true → vc.bCanVaultFromGround = true) ∧
    (cm.IsFalling = true → vc.bCanVaultFromFalling = true) ∧
    (cm.IsSwimming = true → vc.bCanVaultFromSwimming = true) ∧
    ¬ (cm.IsCrouching = true ∧ vc.bCanVaultFromCrouching = false)

/-- Method `AVIACFCharacter::StartVaultAbility_Implementation` (VIACFCharacter.cpp 155-163). -/
def StartVaultAbility (s : AVIACFCharacter) : AVIACFCharacter :=
  match s.CharacterMovement with
  | some cm =>
    -- Need to be in flying mode to have root motion on Z axis
    if s.LocalRole.toNat > ENetRole.ROLE_SimulatedProxy.toNat then
      { s with CharacterMovement := some (cm.SetMovementMode EMovementMode.MOVE_Flying) }
    else s
  | none => s

/-- Blueprint event `OnStopVaultAbility`: recorded in the call log. -/
def OnStopVaultAbility (s : AVIACFCharacter) : AVIACFCharacter :=
  { s with Calls := s.Calls ++ [CharacterCall.OnStopVaultAbility] }

/-- Method `AVIACFCharacter::StopVaultAbility` (VIACFCharacter.cpp 165-176). -/
def StopVaultAbility (s : AVIACFCharacter) : AVIACFCharacter :=
  let s1 :=
    match s.CharacterMovement with
    | some cm =>
      -- Exiting flying mode
      if s.LocalRole.toNat > ENetRole.ROLE_SimulatedProxy.toNat then
        { s with CharacterMovement := some (cm.SetMovementMode cm.GetGroundMovementMode) }
      else s
    | none => s
  OnStopVaultAbility s1

/-- Effects of the calls `CheckJumpInput` makes whose code is outside the repository. -/
structure CharacterEnv where
  /-- Call `VaultComponent->CheckVaultInput(DeltaTime, MovementMode)`; the mode argument is absent
  for the one-argument overload. -/
  CheckVaultInput : ℚ → Option EMovementMode → AVIACFCharacter → AVIACFCharacter
  /-- Call `Super::CheckJumpInput(DeltaTime)`. -/
  SuperCheckJumpInput : ℚ → AVIACFCharacter → AVIACFCharacter

/-- Record of one `CheckJumpInput` tick: the sampled vaulting state and the actor state at
the points of the tick the source separates by comments. -/
structure CheckJumpInputTick where
  /-- Local `bIsVaulting`, sampled at line 72. -/
  bIsVaulting : Bool
  /-- State after the replicated flag update (line 78). -/
  afterRepUpdate : AVIACFCharacter
  /-- State after the local vault input block (line 98). -/
  afterVaultInput : AVIACFCharacter
  /-- Whether `StopVaultAbility()` was invoked (line 104). -/
  bStopVaultAbility : Bool
  /-- State when `Super::CheckJumpInput` is entered (line 108). -/
  beforeSuper : AVIACFCharacter
  /-- State when the tick returns (after line 111). -/
  final : AVIACFCharacter

/-- Method `AVIACFCharacter::CheckJumpInput` (VIACFCharacter.cpp 70-112). -/
def CheckJumpInput (env : CharacterEnv) (DeltaTime : ℚ) (s : AVIACFCharacter) :
    CheckJumpInputTick :=
  let bIsVaulting := IsVaulting s
  -- Server update simulated proxies with correct vaulting state
  let s1 :=
    if s.LocalRole = ENetRole.ROLE_Authority ∧ s.NetMode ≠ ENetMode.NM_Standalone then
      { s with bRepIsVaulting := bIsVaulting }
    else s
  -- Try to vault from local input
  let s2 :=
    if s1.bLocallyControlled then
      match s1.VaultComponent with
      | some vc =>
        -- Disable jump if vaulting
        let s1a := if vc.bPressedVault then { s1 with bPressedJump := false } else s1
        -- Possibly execute vault
        match s1a.CharacterMovement with
        | some cm => env.CheckVaultInput DeltaTime (some cm.MovementMode) s1a
        | none => env.CheckVaultInput DeltaTime none s1a
      | none => s1
    else s1
  -- Pick up changes in vaulting state to change movement mode
  let bStop := s2.bWasVaulting && !bIsVaulting
  let s3 := if bStop then StopVaultAbility s2 else s2
  -- Call super so we actually jump if we are meant to
  let s4 := env.SuperCheckJumpInput DeltaTime s3
  -- Cache end of frame
  let s5 := { s4 with bWasVaulting := bIsVaulting }
  { bIsVaulting := bIsVaulting, afterRepUpdate := s1, afterVaultInput := s2,
    bStopVaultAbility := bStop, beforeSuper := s3, final := s5 }

/-- Calls `Jump` and `StopJumping` make into the superclass and the vault component, in the
order they are made. -/
inductive CollaboratorCall where
  | VaultComponent_Jump
  | Super_Jump
  | VaultComponent_Vault
  | Super_StopJumping
  | VaultComponent_StopJumping
  deriving DecidableEq, Repr

/-- Effects and results of the calls `Jump` and `StopJumping` make whose code is outside the
repository. -/
structure JumpEnv where
  /-- Result of `CanJump()`. -/
  CanJump : AVIACFCharacter → Bool
  /-- Call `VaultComponent->Jump(GravityZ, bCanJump, bIsFalling)`: the arbitration result (true
  favors jumping) and the state the call leaves. -/
  VaultComponentJump : ℚ → Bool → Bool → AVIACFCharacter → Bool × AVIACFCharacter
  /-- Call `Super::Jump()`. -/
  SuperJump : AVIACFCharacter → AVIACFCharacter
  /-- Call `VaultComponent->Vault()`, the press of the vault input. -/
  VaultComponentVault : AVIACFCharacter → AVIACFCharacter
  /-- Call `Super::StopJumping()`. -/
  SuperStopJumping : AVIACFCharacter → AVIACFCharacter
  /-- Call `VaultComponent->StopJumping()`. -/
  VaultComponentStopJumping : AVIACFCharacter → AVIACFCharacter

/-- Outcome of `Jump` or `StopJumping`: the collaborator calls made, in order, and the actor
state when the method returns. -/
structure CallResult where
  Calls : List CollaboratorCall
  final : AVIACFCharacter

/-- Method `AVIACFCharacter::Jump` (VIACFCharacter.cpp 122-142). -/
def Jump (env : JumpEnv) (s : AVIACFCharacter) : CallResult :=
  -- If missing critical components then jump and exit
  match s.VaultComponent, s.CharacterMovement with
  | none, _ => { Calls := [CollaboratorCall.Super_Jump], final := env.SuperJump s }
  | some _, none => { Calls := [CollaboratorCall.Super_Jump], final := env.SuperJump s }
  | some _, some cm =>
    -- Either jump or vault, determined by VaultComponent::EVIJumpKeyPriority
    let r := env.VaultComponentJump cm.GravityZ (env.CanJump s) cm.IsFalling s
    if r.1 then
      -- Jump normally
      { Calls := [CollaboratorCall.VaultComponent_Jump, CollaboratorCall.Super_Jump],
        final := env.SuperJump r.2 }
    else
      -- Jump key essentially presses the vault input
      { Calls := [CollaboratorCall.VaultComponent_Jump, CollaboratorCall.VaultComponent_Vault],
        final := env.VaultComponentVault r.2 }

/-- Method `AVIACFCharacter::StopJumping` (VIACFCharacter.cpp 144-153). -/
def StopJumping (env : JumpEnv) (s : AVIACFCharacter) : CallResult :=
  let s1 := env.SuperStopJumping s
  -- Release vault input if the jump key pressed vault instead
  match s1.VaultComponent with
  | some _ =>
    { Calls := [CollaboratorCall.Super_StopJumping, CollaboratorCall.VaultComponent_StopJumping],
      final := env.VaultComponentStopJumping s1 }
  | none => { Calls := [CollaboratorCall.Super_StopJumping], final := s1 }

/-- Modelled from the spec: `UVIMotionWarpingComponent::AddOrUpdateSyncPoint` is plugin code; the
spec (section 6) describes the motion-alignment collaborator as accepting a named sync point,
so the point replaces the points of its name, or is added when there is none. -/
def UVIMotionWarpingComponent.AddOrUpdateSyncPoint (mw : UVIMotionWarpingComponent)
    (p : FVIMotionWarpingSyncPoint) : UVIMotionWarpingComponent :=
  if mw.SyncPoints.any (fun q => q.Name == p.Name) then
    { SyncPoints := mw.SyncPoints.map fun q => if q.Name == p.Name then p else q }
  else
    { SyncPoints := mw.SyncPoints ++ [p] }

/-- Method `AVIACFCharacter::OnRep_MotionMatch` (VIACFCharacter.cpp 178-182).  The source
dereferences `MotionWarping` without a test, so the result is `none` when the pointer is null.
The orientation of the sync point is kept as the direction it is computed from. -/
def OnRep_MotionMatch (s : AVIACFCharacter) : Option AVIACFCharacter :=
  match s.MotionWarping with
  | none => none
  | some mw =>
    -- Simulated proxies update their sync points here
    some { s with
      MotionWarping := some (mw.AddOrUpdateSyncPoint
        { Name := "VaultSyncPoint", Location := s.RepMotionMatch.Location,
          Direction := s.RepMotionMatch.Direction }) }

/-- Method `AVIACFCharacter::IsWalkable_Implementation` (VIACFCharacter.cpp 294-298); the
test of the movement component on the hit result is a parameter. -/
def IsWalkable {H : Type} (MovementIsWalkable : UCharacterMovementComponent → H → Bool)
    (s : AVIACFCharacter) (HitResult : H) : Bool :=
  -- Surface we hit can be walked on or not
  match s.CharacterMovement with
  | some cm => MovementIsWalkable cm HitResult
  | none => false

/-- A sequence of `CheckJumpInput` ticks.  Each entry gives the frame time and the actor state
the world presents at the start of the tick; `bWasVaulting`, which only line 111 writes, is
carried over from the end of the previous tick. -/
def runCheckJumpInput (env : CharacterEnv) :
    Bool → List (ℚ × AVIACFCharacter) → List CheckJumpInputTick
  | _, [] => []
  | bWas, (DeltaTime, s) :: rest =>
    let t := CheckJumpInput env DeltaTime { s with bWasVaulting := bWas }
    t :: runCheckJumpInput env t.final.bWasVaulting rest

/-- Number of changes from true to false in a sequence of sampled vaulting states that is
preceded by the value `prev`, following the wording of the specification. -/
def countTrueToFalse : Bool → List Bool → Nat
  | _, [] => 0
  | prev, b :: rest => (if prev = true ∧ b = false then 1 else 0) + countTrueToFalse b rest

/-- Number of ticks of a sequence in which `StopVaultAbility()` was invoked. -/
def countStopVaultAbility (ticks : List CheckJumpInputTick) : Nat :=
  (ticks.filter fun t => t.bStopVaultAbility).length

/-! ## UVIACFAnimInstance -/

/-- Bone entry of the FBIK state (`FVIBoneFBIKData`), as far as the source reads it. -/
structure FVIBoneFBIKData where
  bEnabled : Bool
  Location : FVector
  deriving DecidableEq, Repr

/-- The actor the animation instance is bound to (`AVICharacterBase`): the value its virtual
`IsVaulting()` reports in the current frame. -/
structure AVICharacterBase where
  IsVaulting : Bool
  deriving DecidableEq, Repr

/-- Calls from `UVIACFAnimInstance` into Blueprint events, in the order they are raised. -/
inductive AnimCall where
  | K2_OnStartVault
  | K2_OnStopVault
  deriving DecidableEq, Repr

/-- State of a `UVIACFAnimInstance`; `F` is the type of the FBIK state member `FBIK`, which
belongs to the VaultIt plugin. -/
structure UVIACFAnimInstance (F : Type) where
  /-- Pointer member `Character`, set by `NativeInitializeAnimation`. -/
  Character : Option AVICharacterBase
  bIsVaulting : Bool
  Speed : ℚ
  FBIK : F
  RHandName : FName
  LHandName : FName
  bRHand : Bool
  RHandLoc : FVector
  bLHand : Bool
  LHandLoc : FVector
  bBothHand : Bool
  /-- Blueprint events raised so far, oldest first. -/
  Calls : List AnimCall

/-- Functions `UVIACFAnimInstance` calls whose code is outside the repository: the superclass
frame update and the FBIK functions of `UVIBlueprintFunctionLibrary`. -/
structure AnimEnv (F : Type) where
  /-- Call `Super::NativeUpdateAnimation(DeltaTime)`. -/
  SuperNativeUpdateAnimation : ℚ → UVIACFAnimInstance F → UVIACFAnimInstance F
  /-- Call `InterpolateFBIK(DeltaTime, FBIK)`, updating the FBIK state in place. -/
  InterpolateFBIK : ℚ → F → F
  /-- Call `GetBoneForFBIK(BoneName, FBIK)`: a pointer to the bone entry, null when absent. -/
  GetBoneForFBIK : FName → F → Option FVIBoneFBIKData
  /-- Call `ToggleBoneFBIK(BoneName, BoneLocation, bEnabled, FBIK)`, updating the FBIK state. -/
  ToggleBoneFBIK : FName → FVector → Bool → F → F

/-- Method `UVIACFAnimInstance::OnStartVault` (VIACFAnimInstance.cpp 68-71). -/
def OnStartVault {F : Type} (a : UVIACFAnimInstance F) : UVIACFAnimInstance F :=
  { a with Calls := a.Calls ++ [AnimCall.K2_OnStartVault] }

/-- Method `UVIACFAnimInstance::OnStopVault` (VIACFAnimInstance.cpp 73-81). -/
def OnStopVault {F : Type} (a : UVIACFAnimInstance F) : UVIACFAnimInstance F :=
  -- Stopped vaulting
  { a with bRHand := false, bLHand := false, bBothHand := false,
           Calls := a.Calls ++ [AnimCall.K2_OnStopVault] }

/-- Method `UVIACFAnimInstance::SetBoneFBIK_Implementation` (VIACFAnimInstance.cpp 83-86). -/
def SetBoneFBIK {F : Type} (env : AnimEnv F) (BoneName : FName) (BoneLocation : FVector)
    (bEnabled : Bool) (a : UVIACFAnimInstance F) : UVIACFAnimInstance F :=
  { a with FBIK := env.ToggleBoneFBIK BoneName BoneLocation bEnabled a.FBIK }

/-- The vaulting block of `NativeUpdateAnimation` (VIACFAnimInstance.cpp 24-55), entered with
`bIsVaulting` true.  The result is `none` when a bone lookup returns a null pointer, which the
source dereferences unchecked. -/
def ResolveFBIK {F : Type} (env : AnimEnv F) (DeltaTime : ℚ) (a : UVIACFAnimInstance F) :
    Option (UVIACFAnimInstance F) :=
  -- Resetting these while vaulting leads to better blending out
  let a1 := { a with Speed := 0 }
  -- Interp FBIK
  let a2 := { a1 with FBIK := env.InterpolateFBIK DeltaTime a1.FBIK }
  -- Right Hand
  match env.GetBoneForFBIK a2.RHandName a2.FBIK with
  | none => none
  | some RBone =>
    let a3 := { a2 with bRHand := RBone.bEnabled, RHandLoc := RBone.Location }
    -- Left Hand
    match env.GetBoneForFBIK a3.LHandName a3.FBIK with
    | none => none
    | some LBone =>
      let a4 := { a3 with bLHand := LBone.bEnabled, LHandLoc := LBone.Location }
      -- Both Hands
      let a5 := { a4 with bBothHand := a4.bRHand && a4.bLHand }
      if a5.bBothHand then
        -- Use only control rig with both IK
        some { a5 with bRHand := false, bLHand := false }
      else some a5

/-- Method `UVIACFAnimInstance::NativeUpdateAnimation` (VIACFAnimInstance.cpp 16-66). -/
def NativeUpdateAnimation {F : Type} (env : AnimEnv F) (DeltaTime : ℚ)
    (a0 : UVIACFAnimInstance F) : Option (UVIACFAnimInstance F) :=
  let a := env.SuperNativeUpdateAnimation DeltaTime a0
  match a.Character with
  | none => some a
  | some Character =>
    let bWasVaulting := a.bIsVaulting
    let a1 := { a with bIsVaulting := Character.IsVaulting }
    (if a1.bIsVaulting then ResolveFBIK env DeltaTime a1 else some a1).map fun a2 =>
      if a2.bIsVaulting && !bWasVaulting then OnStartVault a2
      else if bWasVaulting && !a2.bIsVaulting then OnStopVault a2
      else a2

/-- The composite output excludes the per-hand outputs: `bBothHand` implies that `bRHand` and
`bLHand` are both false. -/
def BothHandExclusive {F : Type} (a : UVIACFAnimInstance F) : Prop :=
  a.bBothHand = true → a.bRHand = false ∧ a.bLHand = false

/-- Operations of the animation driver.  A frame carries its frame time and the binding the
frame finds: the bound actor, if any, with the vaulting state it reports in that frame. -/
inductive AnimOp where
  | NativeUpdateAnimation (DeltaTime : ℚ) (Character : Option AVICharacterBase)
  | OnStartVault
  | OnStopVault
  | SetBoneFBIK (BoneName : FName) (BoneLocation : FVector) (bEnabled : Bool)

/-- One operation of the animation driver. -/
def applyAnimOp {F : Type} (env : AnimEnv F) :
    AnimOp → UVIACFAnimInstance F → Option (UVIACFAnimInstance F)
  | .NativeUpdateAnimation DeltaTime Character, a =>
    NativeUpdateAnimation env DeltaTime { a with Character := Character }
  | .OnStartVault, a => some (OnStartVault a)
  | .OnStopVault, a => some (OnStopVault a)
  | .SetBoneFBIK BoneName BoneLocation bEnabled, a =>
    some (SetBoneFBIK env BoneName BoneLocation bEnabled a)

/-- A run of the animation driver: the operations in order, stopping at a null dereference. -/
def runAnimOps {F : Type} (env : AnimEnv F) :
    List AnimOp → UVIACFAnimInstance F → Option (UVIACFAnimInstance F)
  | [], a => some a
  | op :: ops, a => (applyAnimOp env op a).bind (runAnimOps env ops)

/-! ## Sample inputs -/

/-- A vault component with every configuration flag set, not vaulting, ability initialized. -/
def sampleVault : UVIPawnVaultComponent :=
  { IsVaulting := false, bVaultAbilityInitialized := true, bCanVaultFromGround := true,
    bCanVaultFromFalling := true, bCanVaultFromSwimming := true,
    bCanVaultFromCrouching := true, bPressedVault := false }

/-- A movement component walking on ground with no input acceleration. -/
def sampleMovement : UCharacterMovementComponent :=
  { MovementMode := EMovementMode.MOVE_Walking, GroundMovementMode := EMovementMode.MOVE_Walking,
    IsMovingOnGround := true, IsFalling := false, IsSwimming := false, IsCrouching := false,
    GravityZ := -980, CurrentAcceleration := ⟨0, 0, 0⟩ }

/-- A locally controlled autonomous proxy on a client, all collaborators present, standing on
ground and facing along the X axis. -/
def sampleActor : AVIACFCharacter :=
  { LocalRole := ENetRole.ROLE_AutonomousProxy, NetMode := ENetMode.NM_Client,
    bLocallyControlled := true,
    VaultComponent := some sampleVault, CharacterMovement := some sampleMovement,
    Mesh := some { bHasAnimInstance := true }, MotionWarping := some { SyncPoints := [] },
    bRepIsVaulting := false, bWasVaulting := false, bPressedJump := false,
    RepMotionMatch := { Location := ⟨0, 0, 0⟩, Direction := ⟨1, 0, 0⟩ },
    ActorForwardVector := ⟨1, 0, 0⟩, Calls := [] }

/-- The sample actor as the authority of a listen server. -/
def sampleAuthority : AVIACFCharacter :=
  { sampleActor with LocalRole := ENetRole.ROLE_Authority, NetMode := ENetMode.NM_ListenServer }

/-- The sample actor as a simulated proxy that is not locally controlled. -/
def sampleSimulated : AVIACFCharacter :=
  { sampleActor with LocalRole := ENetRole.ROLE_SimulatedProxy, bLocallyControlled := false }

/-- The sample vault component while it predicts a vault in progress. -/
def sampleVaultVaulting : UVIPawnVaultComponent :=
  { sampleVault with IsVaulting := true }

/-- The sample authority before its vault ability has been initialized. -/
def sampleAuthorityUninitialized : AVIACFCharacter :=
  { sampleAuthority with
    VaultComponent := some { sampleVault with bVaultAbilityInitialized := false } }

/-- The sample actor with a movement collaborator that reports moving on ground and falling
at once, falling vaults disallowed. -/
def sampleGroundAndFalling : AVIACFCharacter :=
  { sampleActor with
    VaultComponent := some { sampleVault with bCanVaultFromFalling := false },
    CharacterMovement := some { sampleMovement with IsFalling := true } }

/-- The sample actor on ground with ground vaults disallowed. -/
def sampleGroundDisallowed : AVIACFCharacter :=
  { sampleActor with
    VaultComponent := some { sampleVault with bCanVaultFromGround := false } }

/-- The sample actor falling with falling vaults disallowed. -/
def sampleFallingDisallowed : AVIACFCharacter :=
  { sampleActor with
    VaultComponent := some { sampleVault with bCanVaultFromFalling := false },
    CharacterMovement := some { sampleMovement with
      MovementMode := EMovementMode.MOVE_Falling, IsMovingOnGround := false,
      IsFalling := true } }

/-- The sample actor swimming with swimming vaults disallowed. -/
def sampleSwimmingDisallowed : AVIACFCharacter :=
  { sampleActor with
    VaultComponent := some { sampleVault with bCanVaultFromSwimming := false },
    CharacterMovement := some { sampleMovement with
      MovementMode := EMovementMode.MOVE_Swimming, IsMovingOnGround := false,
      IsSwimming := true } }

/-- The sample actor with input acceleration (2,0,0), facing along the Y axis. -/
def sampleWithInput : AVIACFCharacter :=
  { sampleActor with
    CharacterMovement := some { sampleMovement with CurrentAcceleration := ⟨2, 0, 0⟩ },
    ActorForwardVector := ⟨0, 1, 0⟩ }

/-- The sample actor one tick after its vault ended: the previous tick saw it vaulting, it is
still in flying mode, and its ground movement mode resolves to falling. -/
def sampleVaultEnded : AVIACFCharacter :=
  { sampleActor with
    bWasVaulting := true,
    CharacterMovement := some { sampleMovement with
      MovementMode := EMovementMode.MOVE_Flying,
      GroundMovementMode := EMovementMode.MOVE_Falling,
      IsMovingOnGround := false } }

/-- Collaborator effects that leave the actor as it is. -/
def sampleCharacterEnv : CharacterEnv :=
  { CheckVaultInput := fun _ _ s => s, SuperCheckJumpInput := fun _ s => s }

/-- FBIK collaborator over a list of named bone entries: interpolation leaves the entries as
they are, lookup finds the first entry of the name, toggling replaces the entries of the name. -/
def sampleAnimEnv : AnimEnv (List (FName × FVIBoneFBIKData)) :=
  { SuperNativeUpdateAnimation := fun _ a => a,
    InterpolateFBIK := fun _ f => f,
    GetBoneForFBIK := fun n f => (f.find? fun e => e.1 == n).map Prod.snd,
    ToggleBoneFBIK := fun n loc b f =>
      f.map fun e => if e.1 == n then (e.1, { bEnabled := b, Location := loc }) else e }

/-- An animation instance bound to a vaulting actor, both hand slots enabled in the FBIK state. -/
def sampleAnim : UVIACFAnimInstance (List (FName × FVIBoneFBIKData)) :=
  { Character := some { IsVaulting := true }, bIsVaulting := true, Speed := 300,
    FBIK := [("hand_r", { bEnabled := true, Location := ⟨10, 20, 30⟩ }),
             ("hand_l", { bEnabled := true, Location := ⟨10, -20, 30⟩ })],
    RHandName := "hand_r", LHandName := "hand_l",
    bRHand := false, RHandLoc := ⟨0, 0, 0⟩, bLHand := false, LHandLoc := ⟨0, 0, 0⟩,
    bBothHand := false, Calls := [] }

/-- The sample actor with every collaborator absent: no vault component, no movement
collaborator, no mesh and no motion warping component. -/
def sampleNoCollaborators : AVIACFCharacter :=
  { sampleSimulated with
    VaultComponent := none, CharacterMovement := none, Mesh := none, MotionWarping := none }

/-- Jump collaborators: the arbitration favors jumping exactly when the actor can jump and is
not falling; the calls leave the actor as it is. -/
def sampleJumpEnv : JumpEnv :=
  { CanJump := fun s => !IsVaulting s,
    VaultComponentJump := fun _ bCanJump bIsFalling s => (bCanJump && !bIsFalling, s),
    SuperJump := fun s => s,
    VaultComponentVault := fun s => s,
    SuperStopJumping := fun s => s,
    VaultComponentStopJumping := fun s => s }

/-- Jump collaborators with visible effects: the superclass jump sets `bPressedJump`, the
vault input press sets `bPressedVault`, the two releases clear them; the arbitration favors
jumping exactly when the actor can jump and is not falling. -/
def samplePressingJumpEnv : JumpEnv :=
  { CanJump := fun s => !IsVaulting s,
    VaultComponentJump := fun _ bCanJump bIsFalling s => (bCanJump && !bIsFalling, s),
    SuperJump := fun s => { s with bPressedJump := true },
    VaultComponentVault := fun s =>
      { s with VaultComponent := s.VaultComponent.map fun vc => { vc with bPressedVault := true } },
    SuperStopJumping := fun s => { s with bPressedJump := false },
    VaultComponentStopJumping := fun s =>
      { s with VaultComponent := s.VaultComponent.map fun vc => { vc with bPressedVault := false } } }

/-- The sample actor while falling. -/
def sampleFalling : AVIACFCharacter :=
  { sampleActor with
    CharacterMovement := some { sampleMovement with
      MovementMode := EMovementMode.MOVE_Falling, IsMovingOnGround := false,
      IsFalling := true } }

/-- The sample actor in flying mode during a vault. -/
def sampleVaultingFlying : AVIACFCharacter :=
  { sampleActor with
    VaultComponent := some sampleVaultVaulting,
    CharacterMovement := some { sampleMovement with
      MovementMode := EMovementMode.MOVE_Flying, IsMovingOnGround := false } }

/-- The sample actor with the vault input pressed and a jump pending. -/
def samplePressedVault : AVIACFCharacter :=
  { sampleActor with
    VaultComponent := some { sampleVault with bPressedVault := true },
    bPressedJump := true }

/-- Seven ticks of the sample actor whose vault component predicts, in order: not vaulting,
vaulting, vaulting, not vaulting, not vaulting, vaulting, not vaulting. -/
def sampleTicks : List (ℚ × AVIACFCharacter) :=
  [false, true, true, false, false, true, false].map fun b =>
    (1 / 60, { sampleActor with VaultComponent := some { sampleVault with IsVaulting := b } })

/-- An animation instance bound to an actor that has just stopped vaulting: the previous
frame was vaulting with the composite output set. -/
def sampleAnimStopping : UVIACFAnimInstance (List (FName × FVIBoneFBIKData)) :=
  { sampleAnim with Character := some { IsVaulting := false }, bBothHand := true }

/-- An animation instance bound to an idle actor, every output false. -/
def sampleAnimIdle : UVIACFAnimInstance (List (FName × FVIBoneFBIKData)) :=
  { sampleAnim with Character := some { IsVaulting := false }, bIsVaulting := false }

/-- An animation instance bound to a vaulting actor whose left hand slot is disabled. -/
def sampleAnimRightOnly : UVIACFAnimInstance (List (FName × FVIBoneFBIKData)) :=
  { sampleAnim with
    FBIK := [("hand_r", { bEnabled := true, Location := ⟨10, 20, 30⟩ }),
             ("hand_l", { bEnabled := false, Location := ⟨10, -20, 30⟩ })] }

/-- A run of the animation driver: an idle frame, both hands placed, two vaulting frames,
the left hand released, a vaulting frame and the frame in which the vault has stopped. -/
def sampleAnimRun : List AnimOp :=
  [AnimOp.NativeUpdateAnimation (1 / 60) (some { IsVaulting := false }),
   AnimOp.SetBoneFBIK "hand_r" ⟨1, 2, 3⟩ true,
   AnimOp.NativeUpdateAnimation (1 / 60) (some { IsVaulting := true }),
   AnimOp.NativeUpdateAnimation (1 / 60) (some { IsVaulting := true }),
   AnimOp.SetBoneFBIK "hand_l" ⟨1, -2, 3⟩ false,
   AnimOp.NativeUpdateAnimation (1 / 60) (some { IsVaulting := true }),
   AnimOp.NativeUpdateAnimation (1 / 60) (some { IsVaulting := false })]

/-! ## Vault eligibility and net role adapter -/

/-- `CanVault` on a state whose three collaborators are present and whose vaulting state is
false, as one boolean expression. -/
theorem CanVault_eq_of_components (s : AVIACFCharacter) (vc : UVIPawnVaultComponent)
    (cm : UCharacterMovementComponent) (mesh : USkeletalMeshComponent)
    (hv : IsVaulting s = false) (hvc : s.VaultComponent = some vc)
    (hcm : s.CharacterMovement = some cm) (hm : s.Mesh = some mesh) :
    CanVault s =
      (mesh.bHasAnimInstance && (!HasAuthority s || vc.bVaultAbilityInitialized)
        && (cm.IsMovingOnGround || cm.IsFalling || cm.IsSwimming)
        && (!cm.IsMovingOnGround || vc.bCanVaultFromGround)
        && (!cm.IsFalling || vc.bCanVaultFromFalling)
        && (!cm.IsSwimming || vc.bCanVaultFromSwimming)
        && (vc.bCanVaultFromCrouching || !cm.IsCrouching)) := by
  unfold CanVault
  rw [hv]
  simp only [hvc, hcm, hm]
  cases mesh.bHasAnimInstance <;> cases HasAuthority s <;> cases vc.bVaultAbilityInitialized <;>
    cases cm.IsMovingOnGround <;> cases cm.IsFalling <;> cases cm.IsSwimming <;>
    cases vc.bCanVaultFromGround <;> cases vc.bCanVaultFromFalling <;>
    cases vc.bCanVaultFromSwimming <;> cases vc.bCanVaultFromCrouching <;>
    cases cm.IsCrouching <;> rfl

/-- `CanVault` is false as soon as the vault component is absent. -/
theorem CanVault_of_no_vault (s : AVIACFCharacter) (h : s.VaultComponent = none) :
    CanVault s = false := by
  unfold CanVault
  split
  · rfl
  · simp [h]

/-- `CanVault` is false as soon as the movement collaborator is absent. -/
theorem CanVault_of_no_movement (s : AVIACFCharacter) (h : s.CharacterMovement = none) :
    CanVault s = false := by
  unfold CanVault
  split
  · rfl
  · cases hvc : s.VaultComponent <;> simp [h]

/-- `CanVault` is false as soon as the mesh is absent. -/
theorem CanVault_of_no_mesh (s : AVIACFCharacter) (h : s.Mesh = none) :
    CanVault s = false := by
  unfold CanVault
  split
  · rfl
  · cases hvc : s.VaultComponent <;> cases hcm : s.CharacterMovement <;> simp [h]

/-- C1. `CanVault` equals its reference definition: it returns true exactly when the actor is
not vaulting, the vault component, the movement collaborator, the mesh and its animation
instance are present, the actor has no authority or the vault ability is initialized, the
actor is in at least one of moving on ground, falling, swimming, the flag of each of these
modes it is in is set, and it is not crouching with crouched vaulting unset; in every other
case it returns false.  `CanVault` is a function from the actor state to a boolean, so it
produces no actor state. -/
theorem C1_CanVault_iff_spec (s : AVIACFCharacter) :
    (CanVault s = true ↔ CanVaultSpec s) ∧ (CanVault s = false ↔ ¬ CanVaultSpec s) := by
  have key : CanVault s = true ↔ CanVaultSpec s := by
    constructor
    · intro h
      cases hv : IsVaulting s with
      | true => simp [CanVault, hv] at h
      | false =>
        cases hvc : s.VaultComponent with
        | none => rw [CanVault_of_no_vault s hvc] at h; cases h
        | some vc =>
          cases hcm : s.CharacterMovement with
          | none => rw [CanVault_of_no_movement s hcm] at h; cases h
          | some cm =>
            cases hm : s.Mesh with
            | none => rw [CanVault_of_no_mesh s hm] at h; cases h
            | some mesh =>
              rw [CanVault_eq_of_components s vc cm mesh hv hvc hcm hm] at h
              simp only [Bool.and_eq_true, Bool.or_eq_true, Bool.not_eq_true'] at h
              obtain ⟨⟨⟨⟨⟨⟨h1, h2⟩, h3⟩, h4⟩, h5⟩, h6⟩, h7⟩ := h
              refine ⟨hv, vc, cm, mesh, hvc, hcm, hm, h1, h2, ?_, ?_, ?_, ?_, ?_⟩
              · rcases h3 with (h3 | h3) | h3
                · exact Or.inl h3
                · exact Or.inr (Or.inl h3)
                · exact Or.inr (Or.inr h3)
              · intro g; rcases h4 with h4 | h4
                · rw [g] at h4; cases h4
                · exact h4
              · intro g; rcases h5 with h5 | h5
                · rw [g] at h5; cases h5
                · exact h5
              · intro g; rcases h6 with h6 | h6
                · rw [g] at h6; cases h6
                · exact h6
              · rintro ⟨g1, g2⟩; rcases h7 with h7 | h7
                · rw [g2] at h7; cases h7
                · rw [g1] at h7; cases h7
    · rintro ⟨hv, vc, cm, mesh, hvc, hcm, hm, h1, h2, h3, h4, h5, h6, h7⟩
      rw [CanVault_eq_of_components s vc cm mesh hv hvc hcm hm]
      simp only [Bool.and_eq_true, Bool.or_eq_true, Bool.not_eq_true']
      refine ⟨⟨⟨⟨⟨⟨h1, h2⟩, ?_⟩, ?_⟩, ?_⟩, ?_⟩, ?_⟩
      · rcases h3 with h3 | h3 | h3
        · exact Or.inl (Or.inl h3)
        · exact Or.inl (Or.inr h3)
        · exact Or.inr h3
      · cases g : cm.IsMovingOnGround
        · exact Or.inl rfl
        · exact Or.inr (h4 g)
      · cases g : cm.IsFalling
        · exact Or.inl rfl
        · exact Or.inr (h5 g)
      · cases g : cm.IsSwimming
        · exact Or.inl rfl
        · exact Or.inr (h6 g)
      · cases g1 : vc.bCanVaultFromCrouching
        · cases g2 : cm.IsCrouching
          · exact Or.inr rfl
          · exact absurd ⟨g2, g1⟩ h7
        · exact Or.inl rfl
  refine ⟨key, ?_⟩
  rw [← key]
  cases CanVault s <;> simp

/-- C2. Whenever `IsVaulting` returns true, `CanVault` returns false, whatever the role, the
components, the movement predicates and the configuration flags are. -/
theorem C2_CanVault_false_while_vaulting (s : AVIACFCharacter) (h : IsVaulting s = true) :
    CanVault s = false := by
  unfold CanVault
  rw [h]
  rfl

/-- Witness of C2 on an authority, an autonomous proxy and a simulated proxy that are
vaulting while every other condition of `CanVault` is met. -/
theorem C2_CanVault_false_while_vaulting_witness :
    (IsVaulting { sampleAuthority with VaultComponent := some sampleVaultVaulting } = true ∧
      CanVault { sampleAuthority with VaultComponent := some sampleVaultVaulting } = false) ∧
    (IsVaulting { sampleActor with VaultComponent := some sampleVaultVaulting } = true ∧
      CanVault { sampleActor with VaultComponent := some sampleVaultVaulting } = false) ∧
    (IsVaulting { sampleSimulated with bRepIsVaulting := true } = true ∧
      CanVault { sampleSimulated with bRepIsVaulting := true } = false) :=
  ⟨⟨rfl, C2_CanVault_false_while_vaulting _ rfl⟩,
   ⟨rfl, C2_CanVault_false_while_vaulting _ rfl⟩,
   ⟨rfl, C2_CanVault_false_while_vaulting _ rfl⟩⟩

/-- C3. `IsVaulting` selects its source by net role only: on a simulated proxy it returns
`bRepIsVaulting`, on every other role it returns the predicted value of the vault component
(false when the component is absent).  Hence on a simulated proxy the result does not depend
on the vault component, and on every other role it does not depend on `bRepIsVaulting`. -/
theorem C3_IsVaulting_source_by_role (s : AVIACFCharacter) :
    (s.LocalRole = ENetRole.ROLE_SimulatedProxy → IsVaulting s = s.bRepIsVaulting) ∧
    (s.LocalRole ≠ ENetRole.ROLE_SimulatedProxy →
      IsVaulting s = (match s.VaultComponent with
                      | some vc => vc.IsVaulting
                      | none => false)) ∧
    (s.LocalRole = ENetRole.ROLE_SimulatedProxy →
      ∀ vc : Option UVIPawnVaultComponent,
        IsVaulting { s with VaultComponent := vc } = IsVaulting s) ∧
    (s.LocalRole ≠ ENetRole.ROLE_SimulatedProxy →
      ∀ b : Bool, IsVaulting { s with bRepIsVaulting := b } = IsVaulting s) := by
  refine ⟨?_, ?_, ?_, ?_⟩
  · intro h; simp [IsVaulting, h]
  · intro h; simp [IsVaulting, h]
  · intro h vc; simp [IsVaulting, h]
  · intro h b; simp [IsVaulting, h]

/-- Witness of C3: a simulated proxy whose replicated flag is true and whose vault component
predicts false reports true, also with its vault component replaced by one that predicts
true; an authority whose replicated flag is true and whose vault component predicts false
reports false, also with its replicated flag cleared. -/
theorem C3_IsVaulting_source_by_role_witness :
    IsVaulting { sampleSimulated with bRepIsVaulting := true } = true ∧
    IsVaulting { sampleSimulated with bRepIsVaulting := true,
                                      VaultComponent := some sampleVaultVaulting } = true ∧
    IsVaulting { sampleAuthority with bRepIsVaulting := true } = false ∧
    IsVaulting { sampleAuthority with bRepIsVaulting := false } = false :=
  ⟨(C3_IsVaulting_source_by_role { sampleSimulated with bRepIsVaulting := true }).1 rfl,
   ((C3_IsVaulting_source_by_role { sampleSimulated with bRepIsVaulting := true }).2.2.1 rfl
      (some sampleVaultVaulting)).trans rfl,
   (C3_IsVaulting_source_by_role { sampleAuthority with bRepIsVaulting := true }).2.1
      (by decide),
   ((C3_IsVaulting_source_by_role { sampleAuthority with bRepIsVaulting := true }).2.2.2
      (by decide) false).trans rfl⟩

/-- Counterexample to C4 as stated.  An authority whose vault ability is not initialized is
on ground with ground vaults allowed, not crouching, not vaulting and has all components,
yet `CanVault` returns false (line 234).  So does an actor without authority whose movement
collaborator also reports falling while falling vaults are disallowed (line 247). -/
theorem C4_counterexample :
    (sampleAuthorityUninitialized.VaultComponent =
        some { sampleVault with bVaultAbilityInitialized := false } ∧
      sampleAuthorityUninitialized.CharacterMovement = some sampleMovement ∧
      sampleAuthorityUninitialized.Mesh = some { bHasAnimInstance := true } ∧
      sampleMovement.IsMovingOnGround = true ∧ sampleMovement.IsCrouching = false ∧
      sampleVault.bCanVaultFromGround = true ∧
      IsVaulting sampleAuthorityUninitialized = false ∧
      CanVault sampleAuthorityUninitialized = false) ∧
    (sampleGroundAndFalling.VaultComponent =
        some { sampleVault with bCanVaultFromFalling := false } ∧
      sampleGroundAndFalling.CharacterMovement =
        some { sampleMovement with IsFalling := true } ∧
      sampleGroundAndFalling.Mesh = some { bHasAnimInstance := true } ∧
      HasAuthority sampleGroundAndFalling = false ∧
      IsVaulting sampleGroundAndFalling = false ∧
      CanVault sampleGroundAndFalling = false) :=
  ⟨⟨rfl, rfl, rfl, rfl, rfl, rfl, rfl, rfl⟩, ⟨rfl, rfl, rfl, rfl, rfl, rfl⟩⟩

/-- C4 (amended). On ground with ground vaults allowed, not crouching, all components
present and not vaulting, `CanVault` returns true provided the actor has no authority or its
vault ability is initialized, and the flag of falling (of swimming) is set whenever the
movement collaborator also reports falling (swimming). -/
theorem C4_CanVault_on_ground (s : AVIACFCharacter) (vc : UVIPawnVaultComponent)
    (cm : UCharacterMovementComponent) (mesh : USkeletalMeshComponent)
    (hvc : s.VaultComponent = some vc) (hcm : s.CharacterMovement = some cm)
    (hm : s.Mesh = some mesh) (hanim : mesh.bHasAnimInstance = true)
    (hv : IsVaulting s = false)
    (hground : cm.IsMovingOnGround = true) (hflag : vc.bCanVaultFromGround = true)
    (hcrouch : cm.IsCrouching = false)
    (hauth : HasAuthority s = false ∨ vc.bVaultAbilityInitialized = true)
    (hfall : cm.IsFalling = true → vc.bCanVaultFromFalling = true)
    (hswim : cm.IsSwimming = true → vc.bCanVaultFromSwimming = true) :
    CanVault s = true := by
  rw [CanVault_eq_of_components s vc cm mesh hv hvc hcm hm, hanim, hground, hflag, hcrouch]
  have h1 : (!HasAuthority s || vc.bVaultAbilityInitialized) = true := by
    rcases hauth with h | h <;> simp [h]
  have h2 : (!cm.IsFalling || vc.bCanVaultFromFalling) = true := by
    cases g : cm.IsFalling
    · rfl
    · simp [hfall g]
  have h3 : (!cm.IsSwimming || vc.bCanVaultFromSwimming) = true := by
    cases g : cm.IsSwimming
    · rfl
    · simp [hswim g]
  rw [h1, h2, h3]
  simp

/-- Witness of C4 (amended): the sample autonomous proxy and the sample authority with its
ability initialized may vault. -/
theorem C4_CanVault_on_ground_witness :
    CanVault sampleActor = true ∧ CanVault sampleAuthority = true :=
  ⟨C4_CanVault_on_ground sampleActor sampleVault sampleMovement { bHasAnimInstance := true }
     rfl rfl rfl rfl rfl rfl rfl rfl (Or.inl rfl) (fun h => by cases h) (fun h => by cases h),
   C4_CanVault_on_ground sampleAuthority sampleVault sampleMovement { bHasAnimInstance := true }
     rfl rfl rfl rfl rfl rfl rfl rfl (Or.inr rfl) (fun h => by cases h) (fun h => by cases h)⟩

/-- C5. Per-mode configuration veto: an actor that is moving on ground with
`bCanVaultFromGround` unset, or falling with `bCanVaultFromFalling` unset, or swimming with
`bCanVaultFromSwimming` unset, may not vault, whatever every other flag and predicate is. -/
theorem C5_CanVault_mode_veto (s : AVIACFCharacter) (vc : UVIPawnVaultComponent)
    (cm : UCharacterMovementComponent)
    (hvc : s.VaultComponent = some vc) (hcm : s.CharacterMovement = some cm)
    (h : (cm.IsMovingOnGround = true ∧ vc.bCanVaultFromGround = false) ∨
         (cm.IsFalling = true ∧ vc.bCanVaultFromFalling = false) ∨
         (cm.IsSwimming = true ∧ vc.bCanVaultFromSwimming = false)) :
    CanVault s = false := by
  cases hv : IsVaulting s with
  | true => unfold CanVault; rw [hv]; rfl
  | false =>
    cases hm : s.Mesh with
    | none => exact CanVault_of_no_mesh s hm
    | some mesh =>
      rw [CanVault_eq_of_components s vc cm mesh hv hvc hcm hm]
      rcases h with ⟨h1, h2⟩ | ⟨h1, h2⟩ | ⟨h1, h2⟩ <;> simp [h1, h2]

/-- Witness of C5: on ground with ground vaults disallowed, falling with falling vaults
disallowed and swimming with swimming vaults disallowed, `CanVault` is false. -/
theorem C5_CanVault_mode_veto_witness :
    CanVault sampleGroundDisallowed = false ∧ CanVault sampleFallingDisallowed = false ∧
    CanVault sampleSwimmingDisallowed = false :=
  ⟨C5_CanVault_mode_veto sampleGroundDisallowed _ _ rfl rfl (Or.inl ⟨rfl, rfl⟩),
   C5_CanVault_mode_veto sampleFallingDisallowed _ _ rfl rfl (Or.inr (Or.inl ⟨rfl, rfl⟩)),
   C5_CanVault_mode_veto sampleSwimmingDisallowed _ _ rfl rfl (Or.inr (Or.inr ⟨rfl, rfl⟩))⟩

/-! ## Vault direction resolver -/

/-- Counterexample to C6 as stated.  With input acceleration (2,0,0), which is not nearly
zero, `GetVaultDirection` returns (2,0,0) (line 206): not (1,0,0), and of squared length 4,
not 1. -/
theorem C6_counterexample :
    sampleWithInput.CharacterMovement =
      some { sampleMovement with CurrentAcceleration := ⟨2, 0, 0⟩ } ∧
    FVector.IsNearlyZero ⟨2, 0, 0⟩ = false ∧
    GetVaultDirection sampleWithInput = ⟨2, 0, 0⟩ ∧
    GetVaultDirection sampleWithInput ≠ ⟨1, 0, 0⟩ ∧
    (GetVaultDirection sampleWithInput).SizeSquared = 4 ∧
    (GetVaultDirection sampleWithInput).SizeSquared ≠ 1 := by
  have hz : FVector.IsNearlyZero ⟨2, 0, 0⟩ = false := by
    norm_num [FVector.IsNearlyZero, KINDA_SMALL_NUMBER]
  have hd : GetVaultDirection sampleWithInput = ⟨2, 0, 0⟩ := by
    simp [GetVaultDirection, sampleWithInput, hz]
  refine ⟨rfl, hz, hd, ?_, ?_, ?_⟩
  · rw [hd]; decide
  · rw [hd]; norm_num [FVector.SizeSquared]
  · rw [hd]; norm_num [FVector.SizeSquared]

/-- C6 (amended). For every actor that has a movement collaborator whose current input
acceleration is not nearly zero, `GetVaultDirection` returns that input acceleration vector
itself, unchanged. -/
theorem C6_GetVaultDirection_input (s : AVIACFCharacter) (cm : UCharacterMovementComponent)
    (hcm : s.CharacterMovement = some cm)
    (hacc : cm.CurrentAcceleration.IsNearlyZero = false) :
    GetVaultDirection s = cm.CurrentAcceleration := by
  simp [GetVaultDirection, hcm, hacc]

/-- Witness of C6 (amended): input acceleration (2,0,0) resolves to (2,0,0). -/
theorem C6_GetVaultDirection_input_witness :
    GetVaultDirection sampleWithInput = ⟨2, 0, 0⟩ :=
  C6_GetVaultDirection_input sampleWithInput
    { sampleMovement with CurrentAcceleration := ⟨2, 0, 0⟩ } rfl
    (by norm_num [FVector.IsNearlyZero, KINDA_SMALL_NUMBER])

/-- C7. For every actor whose current input acceleration is nearly zero, or that has no
movement collaborator, `GetVaultDirection` returns exactly the forward vector of the actor. -/
theorem C7_GetVaultDirection_forward (s : AVIACFCharacter)
    (h : s.CharacterMovement = none ∨
         ∃ cm, s.CharacterMovement = some cm ∧ cm.CurrentAcceleration.IsNearlyZero = true) :
    GetVaultDirection s = s.ActorForwardVector := by
  rcases h with h | ⟨cm, hcm, hz⟩
  · simp [GetVaultDirection, h]
  · simp [GetVaultDirection, hcm, hz]

/-- Witness of C7: with input acceleration zero and facing direction (1,0,0) the resolved
direction is (1,0,0); so it is without a movement collaborator. -/
theorem C7_GetVaultDirection_forward_witness :
    GetVaultDirection sampleActor = ⟨1, 0, 0⟩ ∧
    GetVaultDirection { sampleActor with CharacterMovement := none } = ⟨1, 0, 0⟩ :=
  ⟨C7_GetVaultDirection_forward sampleActor
     (Or.inr ⟨sampleMovement, rfl, by norm_num [FVector.IsNearlyZero, KINDA_SMALL_NUMBER,
       sampleMovement]⟩),
   C7_GetVaultDirection_forward { sampleActor with CharacterMovement := none } (Or.inl rfl)⟩

/-! ## Animation driver -/

/-- C8. Both-hands collapse: in every frame in which the bound actor is vaulting and both the
right-hand and the left-hand FBIK slots are enabled after interpolation,
`NativeUpdateAnimation` returns, with `bRHand = false`, `bLHand = false` and
`bBothHand = true`.  The binding, the slot names and the FBIK state are read where the code
reads them, in the state the superclass update leaves; the superclass update and the FBIK
functions are arbitrary. -/
theorem C8_both_hands_collapse {F : Type} (env : AnimEnv F) (DeltaTime : ℚ)
    (a0 : UVIACFAnimInstance F) (Character : AVICharacterBase) (RBone LBone : FVIBoneFBIKData)
    (hbound : (env.SuperNativeUpdateAnimation DeltaTime a0).Character = some Character)
    (hvault : Character.IsVaulting = true)
    (hR : env.GetBoneForFBIK (env.SuperNativeUpdateAnimation DeltaTime a0).RHandName
            (env.InterpolateFBIK DeltaTime (env.SuperNativeUpdateAnimation DeltaTime a0).FBIK)
          = some RBone)
    (hL : env.GetBoneForFBIK (env.SuperNativeUpdateAnimation DeltaTime a0).LHandName
            (env.InterpolateFBIK DeltaTime (env.SuperNativeUpdateAnimation DeltaTime a0).FBIK)
          = some LBone)
    (hRe : RBone.bEnabled = true) (hLe : LBone.bEnabled = true) :
    ∃ a, NativeUpdateAnimation env DeltaTime a0 = some a ∧
      a.bRHand = false ∧ a.bLHand = false ∧ a.bBothHand = true := by
  unfold NativeUpdateAnimation
  simp only [hbound, hvault, if_true]
  unfold ResolveFBIK
  simp only [hR, hL, hRe, hLe, Bool.and_self, if_true, Option.map_some']
  cases (env.SuperNativeUpdateAnimation DeltaTime a0).bIsVaulting <;>
    simp [OnStartVault, OnStopVault]

/-- Witness of C8 on the sample animation instance: both hand slots are enabled, the frame
ends with the composite output alone. -/
theorem C8_both_hands_collapse_witness :
    ∃ a, NativeUpdateAnimation sampleAnimEnv (1 / 60) sampleAnim = some a ∧
      a.bRHand = false ∧ a.bLHand = false ∧ a.bBothHand = true :=
  C8_both_hands_collapse sampleAnimEnv (1 / 60) sampleAnim { IsVaulting := true }
    { bEnabled := true, Location := ⟨10, 20, 30⟩ }
    { bEnabled := true, Location := ⟨10, -20, 30⟩ } rfl rfl (by decide) (by decide) rfl rfl

/-! ## Movement-mode bridge -/

/-- With a movement collaborator and a role above simulated proxy, `StopVaultAbility` sets the
movement mode to the reported ground movement mode and raises `OnStopVaultAbility`. -/
theorem StopVaultAbility_of_movement_authority (s : AVIACFCharacter)
    (cm : UCharacterMovementComponent) (hcm : s.CharacterMovement = some cm)
    (hrole : s.LocalRole = ENetRole.ROLE_Authority ∨
             s.LocalRole = ENetRole.ROLE_AutonomousProxy) :
    StopVaultAbility s =
      { s with CharacterMovement := some { cm with MovementMode := cm.GetGroundMovementMode },
               Calls := s.Calls ++ [CharacterCall.OnStopVaultAbility] } := by
  unfold StopVaultAbility OnStopVaultAbility
  rcases hrole with h | h <;>
    simp [hcm, h, ENetRole.toNat, UCharacterMovementComponent.SetMovementMode]

/-- C9. Vault stop restores the ground movement mode.  In a `CheckJumpInput` tick whose
sampled `IsVaulting` is false while the previous tick's vaulting state is true, on an actor
that at the stop has a movement collaborator and role Authority or AutonomousProxy,
`StopVaultAbility` is invoked; immediately after it the movement mode equals the value
`GetGroundMovementMode` reported at that instant, whatever that value is, and
`OnStopVaultAbility` has been raised. -/
theorem C9_stop_restores_ground_mode (env : CharacterEnv) (DeltaTime : ℚ)
    (s : AVIACFCharacter) (cm : UCharacterMovementComponent)
    (hcm : (CheckJumpInput env DeltaTime s).afterVaultInput.CharacterMovement = some cm)
    (hrole : (CheckJumpInput env DeltaTime s).afterVaultInput.LocalRole
               = ENetRole.ROLE_Authority ∨
             (CheckJumpInput env DeltaTime s).afterVaultInput.LocalRole
               = ENetRole.ROLE_AutonomousProxy)
    (hwas : (CheckJumpInput env DeltaTime s).afterVaultInput.bWasVaulting = true)
    (hnow : IsVaulting s = false) :
    (CheckJumpInput env DeltaTime s).bStopVaultAbility = true ∧
    (CheckJumpInput env DeltaTime s).beforeSuper
      = StopVaultAbility (CheckJumpInput env DeltaTime s).afterVaultInput ∧
    (CheckJumpInput env DeltaTime s).beforeSuper.CharacterMovement
      = some { cm with MovementMode := cm.GetGroundMovementMode } ∧
    (CheckJumpInput env DeltaTime s).beforeSuper.Calls
      = (CheckJumpInput env DeltaTime s).afterVaultInput.Calls
          ++ [CharacterCall.OnStopVaultAbility] := by
  have hstop : (CheckJumpInput env DeltaTime s).bStopVaultAbility = true := by
    have : (CheckJumpInput env DeltaTime s).bStopVaultAbility
        = ((CheckJumpInput env DeltaTime s).afterVaultInput.bWasVaulting && !IsVaulting s) :=
      rfl
    rw [this, hwas, hnow]; rfl
  have hbefore : (CheckJumpInput env DeltaTime s).beforeSuper
      = StopVaultAbility (CheckJumpInput env DeltaTime s).afterVaultInput := by
    have : (CheckJumpInput env DeltaTime s).beforeSuper
        = (if (CheckJumpInput env DeltaTime s).bStopVaultAbility = true
            then StopVaultAbility (CheckJumpInput env DeltaTime s).afterVaultInput
            else (CheckJumpInput env DeltaTime s).afterVaultInput) := rfl
    rw [this, hstop]; rfl
  refine ⟨hstop, hbefore, ?_, ?_⟩
  · rw [hbefore, StopVaultAbility_of_movement_authority _ cm hcm hrole]
  · rw [hbefore, StopVaultAbility_of_movement_authority _ cm hcm hrole]

/-- Witness of C9: the sample actor one tick after its vault ended, whose ground movement
mode resolves to falling, leaves flying mode for falling and raises `OnStopVaultAbility`. -/
theorem C9_stop_restores_ground_mode_witness :
    (CheckJumpInput sampleCharacterEnv (1 / 60) sampleVaultEnded).bStopVaultAbility = true ∧
    (CheckJumpInput sampleCharacterEnv (1 / 60) sampleVaultEnded).beforeSuper
      = StopVaultAbility
          (CheckJumpInput sampleCharacterEnv (1 / 60) sampleVaultEnded).afterVaultInput ∧
    (CheckJumpInput sampleCharacterEnv (1 / 60) sampleVaultEnded).beforeSuper.CharacterMovement
      = some { sampleMovement with
                 MovementMode := EMovementMode.MOVE_Falling,
                 GroundMovementMode := EMovementMode.MOVE_Falling,
                 IsMovingOnGround := false } ∧
    (CheckJumpInput sampleCharacterEnv (1 / 60) sampleVaultEnded).beforeSuper.Calls
      = [CharacterCall.OnStopVaultAbility] :=
  C9_stop_restores_ground_mode sampleCharacterEnv (1 / 60) sampleVaultEnded
    { sampleMovement with
        MovementMode := EMovementMode.MOVE_Flying,
        GroundMovementMode := EMovementMode.MOVE_Falling,
        IsMovingOnGround := false }
    rfl (Or.inr rfl) rfl rfl

/-- C10. The movement-mode bridge runs only with movement authority: with role Authority or
AutonomousProxy and a movement collaborator present, `StartVaultAbility` sets the movement
mode to flying and changes nothing else; in every other state it changes nothing; on a
simulated proxy neither `StartVaultAbility` nor `StopVaultAbility` changes the movement
collaborator, hence not the movement mode. -/
theorem C10_bridge_only_with_movement_authority (s : AVIACFCharacter) :
    (∀ cm, s.CharacterMovement = some cm →
      (s.LocalRole = ENetRole.ROLE_Authority ∨ s.LocalRole = ENetRole.ROLE_AutonomousProxy) →
      StartVaultAbility s =
        { s with CharacterMovement :=
                   some { cm with MovementMode := EMovementMode.MOVE_Flying } }) ∧
    (¬ ((s.LocalRole = ENetRole.ROLE_Authority ∨ s.LocalRole = ENetRole.ROLE_AutonomousProxy)
          ∧ s.CharacterMovement ≠ none) →
      StartVaultAbility s = s) ∧
    (s.LocalRole = ENetRole.ROLE_SimulatedProxy →
      (StartVaultAbility s).CharacterMovement = s.CharacterMovement ∧
      (StopVaultAbility s).CharacterMovement = s.CharacterMovement) := by
  refine ⟨?_, ?_, ?_⟩
  · intro cm hcm hrole
    unfold StartVaultAbility
    rcases hrole with h | h <;>
      simp [hcm, h, ENetRole.toNat, UCharacterMovementComponent.SetMovementMode]
  · intro h
    unfold StartVaultAbility
    cases hcm : s.CharacterMovement with
    | none => rfl
    | some cm =>
      cases hr : s.LocalRole with
      | ROLE_None => simp [ENetRole.toNat]
      | ROLE_SimulatedProxy => simp [ENetRole.toNat]
      | ROLE_AutonomousProxy => exact absurd ⟨Or.inr hr, by simp [hcm]⟩ h
      | ROLE_Authority => exact absurd ⟨Or.inl hr, by simp [hcm]⟩ h
  · intro h
    unfold StopVaultAbility OnStopVaultAbility StartVaultAbility
    cases hcm : s.CharacterMovement <;> simp [h, hcm, ENetRole.toNat]

/-- Witness of C10: the sample autonomous proxy enters flying mode on vault start; the sample
simulated proxy keeps its movement collaborator on vault start and on vault stop. -/
theorem C10_bridge_only_with_movement_authority_witness :
    StartVaultAbility sampleActor =
      { sampleActor with
        CharacterMovement :=
          some { sampleMovement with MovementMode := EMovementMode.MOVE_Flying } } ∧
    (StartVaultAbility sampleSimulated).CharacterMovement = some sampleMovement ∧
    (StopVaultAbility sampleSimulated).CharacterMovement = some sampleMovement :=
  ⟨(C10_bridge_only_with_movement_authority sampleActor).1 sampleMovement rfl (Or.inr rfl),
   ((C10_bridge_only_with_movement_authority sampleSimulated).2.2 rfl).1,
   ((C10_bridge_only_with_movement_authority sampleSimulated).2.2 rfl).2⟩

/-- C11. Vault start is idempotent: applying `StartVaultAbility` twice yields the same actor
state as applying it once; on an actor whose movement mode is already flying a further call
changes nothing, and no call changes `RepMotionMatch`, `bRepIsVaulting` or `bWasVaulting`. -/
theorem C11_StartVaultAbility_idempotent (s : AVIACFCharacter) :
    StartVaultAbility (StartVaultAbility s) = StartVaultAbility s ∧
    (∀ cm, s.CharacterMovement = some cm → cm.MovementMode = EMovementMode.MOVE_Flying →
      StartVaultAbility s = s) ∧
    (StartVaultAbility s).RepMotionMatch = s.RepMotionMatch ∧
    (StartVaultAbility s).bRepIsVaulting = s.bRepIsVaulting ∧
    (StartVaultAbility s).bWasVaulting = s.bWasVaulting := by
  refine ⟨?_, ?_, ?_, ?_, ?_⟩
  · unfold StartVaultAbility
    cases hcm : s.CharacterMovement with
    | none => simp [hcm]
    | some cm =>
      by_cases hr : s.LocalRole.toNat > ENetRole.ROLE_SimulatedProxy.toNat
      · simp [hr, UCharacterMovementComponent.SetMovementMode]
      · simp [hr, hcm]
  · intro cm hcm hfly
    unfold StartVaultAbility
    rw [hcm]
    by_cases hr : s.LocalRole.toNat > ENetRole.ROLE_SimulatedProxy.toNat
    · have hcm2 : cm.SetMovementMode EMovementMode.MOVE_Flying = cm := by
        cases cm
        simp only [UCharacterMovementComponent.SetMovementMode] at hfly ⊢
        rw [← hfly]
      simp only [hr, if_true, hcm2]
      rw [← hcm]
    · simp [hr]
  all_goals
    unfold StartVaultAbility
    cases hcm : s.CharacterMovement with
    | none => rfl
    | some cm =>
      by_cases hr : s.LocalRole.toNat > ENetRole.ROLE_SimulatedProxy.toNat <;> simp [hr]

/-- Witness of C11: the sample actor in flying mode during a vault is left as it is by a
further vault start. -/
theorem C11_StartVaultAbility_idempotent_witness :
    StartVaultAbility sampleVaultingFlying = sampleVaultingFlying :=
  (C11_StartVaultAbility_idempotent sampleVaultingFlying).2.1
    { sampleMovement with
        MovementMode := EMovementMode.MOVE_Flying, IsMovingOnGround := false }
    rfl rfl

/-! ## Jump and vault input arbitration -/

/-- C12. Jump arbitration: one `Jump` call performs exactly one of the two actions
`Super::Jump()` and `VaultComponent->Vault()`.  When the vault component or the movement
collaborator is absent, the state it returns is the state `Super::Jump()` leaves and no other
call is made.  Otherwise it runs the arbitration
`VaultComponent->Jump(GravityZ, CanJump(), IsFalling())`; when the arbitration favors jumping
the state it returns is the state `Super::Jump()` leaves after the arbitration, with no vault
input press, and when it does not the state it returns is the state `VaultComponent->Vault()`
leaves after the arbitration, with no superclass jump.  Hence, for every effect of the
collaborator calls, the superclass jump is performed if and only if a component is absent or
the arbitration favors jumping, the vault input press if and only if not, and the two calls
together are made exactly once. -/
theorem C12_Jump_arbitration (env : JumpEnv) (s : AVIACFCharacter) :
    ((s.VaultComponent = none ∨ s.CharacterMovement = none) →
      (Jump env s).final = env.SuperJump s ∧
      (Jump env s).Calls = [CollaboratorCall.Super_Jump]) ∧
    (∀ vc cm, s.VaultComponent = some vc → s.CharacterMovement = some cm →
      ((env.VaultComponentJump cm.GravityZ (env.CanJump s) cm.IsFalling s).1 = true →
        (Jump env s).final
          = env.SuperJump
              (env.VaultComponentJump cm.GravityZ (env.CanJump s) cm.IsFalling s).2 ∧
        (Jump env s).Calls
          = [CollaboratorCall.VaultComponent_Jump, CollaboratorCall.Super_Jump]) ∧
      ((env.VaultComponentJump cm.GravityZ (env.CanJump s) cm.IsFalling s).1 = false →
        (Jump env s).final
          = env.VaultComponentVault
              (env.VaultComponentJump cm.GravityZ (env.CanJump s) cm.IsFalling s).2 ∧
        (Jump env s).Calls
          = [CollaboratorCall.VaultComponent_Jump, CollaboratorCall.VaultComponent_Vault])) ∧
    (Jump env s).Calls.count CollaboratorCall.Super_Jump
      + (Jump env s).Calls.count CollaboratorCall.VaultComponent_Vault = 1 ∧
    (CollaboratorCall.Super_Jump ∈ (Jump env s).Calls ↔
      (s.VaultComponent = none ∨ s.CharacterMovement = none ∨
        ∃ cm, s.CharacterMovement = some cm ∧
          (env.VaultComponentJump cm.GravityZ (env.CanJump s) cm.IsFalling s).1 = true)) ∧
    (CollaboratorCall.VaultComponent_Vault ∈ (Jump env s).Calls ↔
      ¬ (s.VaultComponent = none ∨ s.CharacterMovement = none ∨
        ∃ cm, s.CharacterMovement = some cm ∧
          (env.VaultComponentJump cm.GravityZ (env.CanJump s) cm.IsFalling s).1 = true)) := by
  refine ⟨?_, ?_, ?_⟩
  · intro h
    unfold Jump
    rcases h with h | h
    · simp [h]
    · cases hvc : s.VaultComponent <;> simp [h]
  · intro vc cm hvc hcm
    unfold Jump
    constructor
    · intro hj
      simp [hvc, hcm, hj]
    · intro hj
      simp [hvc, hcm, hj]
  · unfold Jump
    cases hvc : s.VaultComponent with
    | none => simp
    | some vc =>
      cases hcm : s.CharacterMovement with
      | none => simp
      | some cm =>
        cases hj : (env.VaultComponentJump cm.GravityZ (env.CanJump s) cm.IsFalling s).1 <;>
          simp [hj]

/-- Witness of C12 with collaborators whose effects are visible.  On ground the arbitration
favors jumping: `Jump` returns the sample actor with `bPressedJump` set and the vault input
not pressed.  While falling it does not: `Jump` returns the actor with `bPressedVault` set and
`bPressedJump` not set.  With every collaborator absent `Jump` returns the actor with
`bPressedJump` set. -/
theorem C12_Jump_arbitration_witness :
    (Jump samplePressingJumpEnv sampleActor).final
      = { sampleActor with bPressedJump := true } ∧
    (Jump samplePressingJumpEnv sampleFalling).final
      = { sampleFalling with
          VaultComponent := some { sampleVault with bPressedVault := true } } ∧
    (Jump samplePressingJumpEnv sampleFalling).final.bPressedJump = false ∧
    (Jump samplePressingJumpEnv sampleNoCollaborators).final
      = { sampleNoCollaborators with bPressedJump := true } :=
  ⟨(((C12_Jump_arbitration samplePressingJumpEnv sampleActor).2.1
        sampleVault sampleMovement rfl rfl).1 rfl).1,
   (((C12_Jump_arbitration samplePressingJumpEnv sampleFalling).2.1
        sampleVault
        { sampleMovement with
            MovementMode := EMovementMode.MOVE_Falling, IsMovingOnGround := false,
            IsFalling := true }
        rfl rfl).2 rfl).1,
   congrArg AVIACFCharacter.bPressedJump
     (((C12_Jump_arbitration samplePressingJumpEnv sampleFalling).2.1
        sampleVault
        { sampleMovement with
            MovementMode := EMovementMode.MOVE_Falling, IsMovingOnGround := false,
            IsFalling := true }
        rfl rfl).2 rfl).1,
   ((C12_Jump_arbitration samplePressingJumpEnv sampleNoCollaborators).1 (Or.inl rfl)).1⟩

/-! ## CheckJumpInput ticks -/

/-- The stop test of a tick reads `bWasVaulting` as the tick found it, provided the vault
input call leaves `bWasVaulting` as it is. -/
theorem CheckJumpInput_bStopVaultAbility (env : CharacterEnv)
    (hframe : ∀ dt m x, (env.CheckVaultInput dt m x).bWasVaulting = x.bWasVaulting)
    (DeltaTime : ℚ) (s : AVIACFCharacter) :
    (CheckJumpInput env DeltaTime s).bStopVaultAbility
      = (s.bWasVaulting && !IsVaulting s) := by
  have h2 : (CheckJumpInput env DeltaTime s).afterVaultInput.bWasVaulting = s.bWasVaulting := by
    unfold CheckJumpInput
    simp only
    split_ifs <;> (try split) <;> (try split) <;> (try split_ifs) <;> simp [hframe]
  have h3 : (CheckJumpInput env DeltaTime s).bStopVaultAbility
      = ((CheckJumpInput env DeltaTime s).afterVaultInput.bWasVaulting && !IsVaulting s) := rfl
  rw [h3, h2]

/-- Along a sequence of ticks the number of `StopVaultAbility()` invocations is the number of
changes from true to false of the sampled vaulting state, for any carried `bWasVaulting`. -/
theorem countStopVaultAbility_run (env : CharacterEnv)
    (hframe : ∀ dt m x, (env.CheckVaultInput dt m x).bWasVaulting = x.bWasVaulting)
    (inputs : List (ℚ × AVIACFCharacter)) :
    ∀ bWas : Bool,
      countStopVaultAbility (runCheckJumpInput env bWas inputs)
        = countTrueToFalse bWas ((runCheckJumpInput env bWas inputs).map fun t => t.bIsVaulting) := by
  induction inputs with
  | nil => intro bWas; rfl
  | cons hd tl ih =>
    intro bWas
    obtain ⟨dt, s⟩ := hd
    have hstop : (CheckJumpInput env dt { s with bWasVaulting := bWas }).bStopVaultAbility
        = (bWas && !(CheckJumpInput env dt { s with bWasVaulting := bWas }).bIsVaulting) :=
      CheckJumpInput_bStopVaultAbility env hframe dt { s with bWasVaulting := bWas }
    have ih2 := ih (CheckJumpInput env dt { s with bWasVaulting := bWas }).bIsVaulting
    show countStopVaultAbility
          (CheckJumpInput env dt { s with bWasVaulting := bWas } ::
            runCheckJumpInput env
              (CheckJumpInput env dt { s with bWasVaulting := bWas }).bIsVaulting tl)
        = countTrueToFalse bWas
          ((CheckJumpInput env dt { s with bWasVaulting := bWas }).bIsVaulting ::
            (runCheckJumpInput env
              (CheckJumpInput env dt { s with bWasVaulting := bWas }).bIsVaulting tl).map
              fun t => t.bIsVaulting)
    generalize CheckJumpInput env dt { s with bWasVaulting := bWas } = t at hstop ih2 ⊢
    unfold countStopVaultAbility at ih2 ⊢
    rw [countTrueToFalse, ← ih2, List.filter_cons, hstop]
    cases bWas <;> cases t.bIsVaulting <;> simp
    omega

/-- The first tick of a sequence tests the carried `bWasVaulting` against its own sample. -/
theorem runCheckJumpInput_head (env : CharacterEnv)
    (hframe : ∀ dt m x, (env.CheckVaultInput dt m x).bWasVaulting = x.bWasVaulting)
    (bWas : Bool) (inputs : List (ℚ × AVIACFCharacter)) (t : CheckJumpInputTick)
    (h : (runCheckJumpInput env bWas inputs)[0]? = some t) :
    t.bStopVaultAbility = (bWas && !t.bIsVaulting) := by
  cases inputs with
  | nil => simp [runCheckJumpInput] at h
  | cons hd tl =>
    obtain ⟨dt, s⟩ := hd
    simp only [runCheckJumpInput, List.getElem?_cons_zero, Option.some.injEq] at h
    rw [← h]
    exact CheckJumpInput_bStopVaultAbility env hframe dt { s with bWasVaulting := bWas }

/-- Every later tick of a sequence tests the sample of the tick before it against its own. -/
theorem runCheckJumpInput_succ (env : CharacterEnv)
    (hframe : ∀ dt m x, (env.CheckVaultInput dt m x).bWasVaulting = x.bWasVaulting)
    (inputs : List (ℚ × AVIACFCharacter)) :
    ∀ (bWas : Bool) (k : Nat) (t t2 : CheckJumpInputTick),
      (runCheckJumpInput env bWas inputs)[k]? = some t →
      (runCheckJumpInput env bWas inputs)[k + 1]? = some t2 →
      t2.bStopVaultAbility = (t.bIsVaulting && !t2.bIsVaulting) := by
  induction inputs with
  | nil => intro bWas k t t2 h; simp [runCheckJumpInput] at h
  | cons hd tl ih =>
    intro bWas k t t2 h h2
    obtain ⟨dt, s⟩ := hd
    simp only [runCheckJumpInput, List.getElem?_cons_succ] at h2
    cases k with
    | zero =>
      simp only [runCheckJumpInput, List.getElem?_cons_zero, Option.some.injEq] at h
      rw [← h]
      exact runCheckJumpInput_head env hframe _ tl t2 h2
    | succ k =>
      simp only [runCheckJumpInput, List.getElem?_cons_succ] at h
      exact ih _ k t t2 h h2

/-- C14. The stop side effect fires exactly once per transition.  Provided the vault input call
leaves `bWasVaulting` as it is: a tick invokes `StopVaultAbility()` if and only if the
`bWasVaulting` it finds is true and the `IsVaulting` value it samples is false, and it ends
with `bWasVaulting` equal to its sample; along a sequence of ticks started with
`bWasVaulting = false` the first tick does not invoke it, every later tick invokes it if and
only if the sample of the previous tick was true and its own is false, and the number of
invocations is the number of changes from true to false of the sampled values. -/
theorem C14_stop_once_per_transition (env : CharacterEnv)
    (hframe : ∀ dt m x, (env.CheckVaultInput dt m x).bWasVaulting = x.bWasVaulting) :
    (∀ (DeltaTime : ℚ) (s : AVIACFCharacter),
      ((CheckJumpInput env DeltaTime s).bStopVaultAbility = true ↔
        (s.bWasVaulting = true ∧ IsVaulting s = false)) ∧
      (CheckJumpInput env DeltaTime s).bIsVaulting = IsVaulting s ∧
      (CheckJumpInput env DeltaTime s).final.bWasVaulting = IsVaulting s) ∧
    (∀ (inputs : List (ℚ × AVIACFCharacter)),
      (∀ t, (runCheckJumpInput env false inputs)[0]? = some t →
        t.bStopVaultAbility = false) ∧
      (∀ k t t2, (runCheckJumpInput env false inputs)[k]? = some t →
        (runCheckJumpInput env false inputs)[k + 1]? = some t2 →
        (t2.bStopVaultAbility = true ↔ (t.bIsVaulting = true ∧ t2.bIsVaulting = false))) ∧
      countStopVaultAbility (runCheckJumpInput env false inputs)
        = countTrueToFalse false
            ((runCheckJumpInput env false inputs).map fun t => t.bIsVaulting)) := by
  refine ⟨fun DeltaTime s => ⟨?_, rfl, rfl⟩, fun inputs => ⟨?_, ?_, ?_⟩⟩
  · rw [CheckJumpInput_bStopVaultAbility env hframe DeltaTime s]
    cases s.bWasVaulting <;> cases IsVaulting s <;> simp
  · intro t h
    rw [runCheckJumpInput_head env hframe false inputs t h]
    rfl
  · intro k t t2 h h2
    rw [runCheckJumpInput_succ env hframe inputs false k t t2 h h2]
    cases t.bIsVaulting <;> cases t2.bIsVaulting <;> simp
  · exact countStopVaultAbility_run env hframe inputs false

/-- Witness of C14: over seven ticks whose samples are false, true, true, false, false, true,
false, `StopVaultAbility()` is invoked twice. -/
theorem C14_stop_once_per_transition_witness :
    countStopVaultAbility (runCheckJumpInput sampleCharacterEnv false sampleTicks) = 2 ∧
    (runCheckJumpInput sampleCharacterEnv false sampleTicks).map (fun t => t.bIsVaulting)
      = [false, true, true, false, false, true, false] :=
  ⟨((C14_stop_once_per_transition sampleCharacterEnv (fun _ _ _ => rfl)).2 sampleTicks).2.2.trans
      (by decide),
   by decide⟩

/-- The state the vault input block leaves: the state after the replicated flag update when
the actor is not locally controlled or has no vault component. -/
theorem CheckJumpInput_afterVaultInput_of_not_local (env : CharacterEnv) (DeltaTime : ℚ)
    (s : AVIACFCharacter) (h : s.bLocallyControlled = false ∨ s.VaultComponent = none) :
    (CheckJumpInput env DeltaTime s).afterVaultInput
      = (CheckJumpInput env DeltaTime s).afterRepUpdate := by
  unfold CheckJumpInput
  simp only
  rcases h with h | h <;> split_ifs <;> simp_all

/-- `StopVaultAbility` leaves `bRepIsVaulting` and `bPressedJump` as they are. -/
theorem StopVaultAbility_frame (s : AVIACFCharacter) :
    (StopVaultAbility s).bRepIsVaulting = s.bRepIsVaulting ∧
    (StopVaultAbility s).bPressedJump = s.bPressedJump := by
  unfold StopVaultAbility OnStopVaultAbility
  cases hcm : s.CharacterMovement with
  | none => simp
  | some cm =>
    by_cases hr : s.LocalRole.toNat > ENetRole.ROLE_SimulatedProxy.toNat <;> simp [hr]

/-- The state `Super::CheckJumpInput` is entered with agrees with the state the vault input
block leaves on `bRepIsVaulting` and `bPressedJump`. -/
theorem CheckJumpInput_beforeSuper_frame (env : CharacterEnv) (DeltaTime : ℚ)
    (s : AVIACFCharacter) :
    (CheckJumpInput env DeltaTime s).beforeSuper.bRepIsVaulting
      = (CheckJumpInput env DeltaTime s).afterVaultInput.bRepIsVaulting ∧
    (CheckJumpInput env DeltaTime s).beforeSuper.bPressedJump
      = (CheckJumpInput env DeltaTime s).afterVaultInput.bPressedJump := by
  have h : (CheckJumpInput env DeltaTime s).beforeSuper
      = (if (CheckJumpInput env DeltaTime s).bStopVaultAbility = true
          then StopVaultAbility (CheckJumpInput env DeltaTime s).afterVaultInput
          else (CheckJumpInput env DeltaTime s).afterVaultInput) := rfl
  rw [h]
  split_ifs
  · exact StopVaultAbility_frame _
  · exact ⟨rfl, rfl⟩

/-- C15. Replicated-flag write rule.  The replicated flag update of a tick sets
`bRepIsVaulting` to the sampled `IsVaulting` value, and changes nothing else, exactly when
the role is Authority and the net mode is not Standalone; in every other state it changes
nothing.  The rest of the tick does not write the flag: `StopVaultAbility` and the end of
frame cache leave it, so the tick ends with the sampled value in the first case and with the
value it found in every other case, provided the vault input call and the superclass step,
whose code is outside the repository, leave the flag as it is. -/
theorem C15_replicated_flag_write_rule (env : CharacterEnv) (DeltaTime : ℚ)
    (s : AVIACFCharacter) :
    ((s.LocalRole = ENetRole.ROLE_Authority ∧ s.NetMode ≠ ENetMode.NM_Standalone) →
      (CheckJumpInput env DeltaTime s).afterRepUpdate
        = { s with bRepIsVaulting := IsVaulting s }) ∧
    (¬ (s.LocalRole = ENetRole.ROLE_Authority ∧ s.NetMode ≠ ENetMode.NM_Standalone) →
      (CheckJumpInput env DeltaTime s).afterRepUpdate = s) ∧
    (CheckJumpInput env DeltaTime s).beforeSuper.bRepIsVaulting
      = (CheckJumpInput env DeltaTime s).afterVaultInput.bRepIsVaulting ∧
    (CheckJumpInput env DeltaTime s).final.bRepIsVaulting
      = (env.SuperCheckJumpInput DeltaTime
          (CheckJumpInput env DeltaTime s).beforeSuper).bRepIsVaulting ∧
    ((∀ dt m x, (env.CheckVaultInput dt m x).bRepIsVaulting = x.bRepIsVaulting) →
     (∀ dt x, (env.SuperCheckJumpInput dt x).bRepIsVaulting = x.bRepIsVaulting) →
      (CheckJumpInput env DeltaTime s).final.bRepIsVaulting
        = (if s.LocalRole = ENetRole.ROLE_Authority ∧ s.NetMode ≠ ENetMode.NM_Standalone
            then IsVaulting s else s.bRepIsVaulting)) := by
  have hrep : (CheckJumpInput env DeltaTime s).afterRepUpdate
      = (if s.LocalRole = ENetRole.ROLE_Authority ∧ s.NetMode ≠ ENetMode.NM_Standalone
          then { s with bRepIsVaulting := IsVaulting s } else s) := rfl
  refine ⟨?_, ?_, (CheckJumpInput_beforeSuper_frame env DeltaTime s).1, rfl, ?_⟩
  · intro h; rw [hrep, if_pos h]
  · intro h; rw [hrep, if_neg h]
  · intro hCVI hSuper
    have hfinal : (CheckJumpInput env DeltaTime s).final.bRepIsVaulting
        = (env.SuperCheckJumpInput DeltaTime
            (CheckJumpInput env DeltaTime s).beforeSuper).bRepIsVaulting := rfl
    have hinput : (CheckJumpInput env DeltaTime s).afterVaultInput.bRepIsVaulting
        = (CheckJumpInput env DeltaTime s).afterRepUpdate.bRepIsVaulting := by
      unfold CheckJumpInput
      simp only
      split_ifs <;> (try split) <;> (try split) <;> (try split_ifs) <;> simp [hCVI]
    rw [hfinal, hSuper, (CheckJumpInput_beforeSuper_frame env DeltaTime s).1, hinput, hrep]
    split_ifs <;> rfl

/-- Witness of C15: the authority of a listen server that is vaulting writes true into its
replicated flag; a simulated proxy whose vault component predicts a vault keeps the false
flag it received. -/
theorem C15_replicated_flag_write_rule_witness :
    (CheckJumpInput sampleCharacterEnv (1 / 60)
        { sampleAuthority with VaultComponent := some sampleVaultVaulting }).final.bRepIsVaulting
      = true ∧
    (CheckJumpInput sampleCharacterEnv (1 / 60)
        { sampleSimulated with VaultComponent := some sampleVaultVaulting }).final.bRepIsVaulting
      = false :=
  ⟨((C15_replicated_flag_write_rule sampleCharacterEnv (1 / 60)
        { sampleAuthority with VaultComponent := some sampleVaultVaulting }).2.2.2.2
      (fun _ _ _ => rfl) (fun _ _ => rfl)).trans (by decide),
   ((C15_replicated_flag_write_rule sampleCharacterEnv (1 / 60)
        { sampleSimulated with VaultComponent := some sampleVaultVaulting }).2.2.2.2
      (fun _ _ _ => rfl) (fun _ _ => rfl)).trans (by decide)⟩

/-- C20. Vault input suppresses the pending jump.  On a locally controlled actor with a vault
component whose `bPressedVault` is set, the tick clears `bPressedJump` before the vault input
call, so `bPressedJump` is false when `Super::CheckJumpInput` runs, provided the vault input
call leaves `bPressedJump` as it is; the superclass step runs on the state in which the
stop-vault side effect of the tick, if any, has been applied; on an actor that is not
locally controlled or has no vault component the tick does not modify `bPressedJump` before
the superclass step. -/
theorem C20_vault_input_suppresses_jump (env : CharacterEnv) (DeltaTime : ℚ)
    (s : AVIACFCharacter) :
    (∀ vc, s.bLocallyControlled = true → s.VaultComponent = some vc →
      vc.bPressedVault = true →
      (∃ m x, x.bPressedJump = false ∧
        (CheckJumpInput env DeltaTime s).afterVaultInput = env.CheckVaultInput DeltaTime m x) ∧
      ((∀ dt m x, (env.CheckVaultInput dt m x).bPressedJump = x.bPressedJump) →
        (CheckJumpInput env DeltaTime s).beforeSuper.bPressedJump = false)) ∧
    (CheckJumpInput env DeltaTime s).beforeSuper
      = (if (CheckJumpInput env DeltaTime s).bStopVaultAbility = true
          then StopVaultAbility (CheckJumpInput env DeltaTime s).afterVaultInput
          else (CheckJumpInput env DeltaTime s).afterVaultInput) ∧
    (CheckJumpInput env DeltaTime s).final
      = { env.SuperCheckJumpInput DeltaTime (CheckJumpInput env DeltaTime s).beforeSuper with
          bWasVaulting := (CheckJumpInput env DeltaTime s).bIsVaulting } ∧
    ((s.bLocallyControlled = false ∨ s.VaultComponent = none) →
      (CheckJumpInput env DeltaTime s).beforeSuper.bPressedJump = s.bPressedJump) := by
  have hrep : (CheckJumpInput env DeltaTime s).afterRepUpdate
      = (if s.LocalRole = ENetRole.ROLE_Authority ∧ s.NetMode ≠ ENetMode.NM_Standalone
          then { s with bRepIsVaulting := IsVaulting s } else s) := rfl
  refine ⟨?_, rfl, rfl, ?_⟩
  · intro vc hlocal hvc hpressed
    have hex : ∃ m x, x.bPressedJump = false ∧
        (CheckJumpInput env DeltaTime s).afterVaultInput
          = env.CheckVaultInput DeltaTime m x := by
      unfold CheckJumpInput
      simp only
      split_ifs <;> simp only [hlocal, hvc, hpressed, if_true] <;> split <;>
        exact ⟨_, _, rfl, rfl⟩
    refine ⟨hex, fun hCVI => ?_⟩
    obtain ⟨m, x, hx, hafter⟩ := hex
    rw [(CheckJumpInput_beforeSuper_frame env DeltaTime s).2, hafter, hCVI, hx]
  · intro h
    rw [(CheckJumpInput_beforeSuper_frame env DeltaTime s).2,
      CheckJumpInput_afterVaultInput_of_not_local env DeltaTime s h, hrep]
    split_ifs <;> rfl

/-- Witness of C20: the sample actor with the vault input pressed and a jump pending enters
the superclass step with `bPressedJump` false; the sample simulated proxy with a jump pending
enters it with the jump still pending. -/
theorem C20_vault_input_suppresses_jump_witness :
    (CheckJumpInput sampleCharacterEnv (1 / 60) samplePressedVault).beforeSuper.bPressedJump
      = false ∧
    (CheckJumpInput sampleCharacterEnv (1 / 60)
        { sampleSimulated with bPressedJump := true }).beforeSuper.bPressedJump = true :=
  ⟨((C20_vault_input_suppresses_jump sampleCharacterEnv (1 / 60) samplePressedVault).1
      { sampleVault with bPressedVault := true } rfl rfl rfl).2 (fun _ _ _ => rfl),
   (C20_vault_input_suppresses_jump sampleCharacterEnv (1 / 60)
      { sampleSimulated with bPressedJump := true }).2.2.2 (Or.inl rfl)⟩

/-! ## Animation driver frames -/

/-- A frame whose bound actor is not vaulting returns: it performs no FBIK work, records the
new vaulting state, and runs `OnStopVault` exactly when the previous frame was vaulting. -/
theorem NativeUpdateAnimation_not_vaulting {F : Type} (env : AnimEnv F) (DeltaTime : ℚ)
    (a0 a : UVIACFAnimInstance F) (Character : AVICharacterBase)
    (ha : env.SuperNativeUpdateAnimation DeltaTime a0 = a)
    (hbound : a.Character = some Character) (hvault : Character.IsVaulting = false) :
    NativeUpdateAnimation env DeltaTime a0
      = some (if a.bIsVaulting = true then OnStopVault { a with bIsVaulting := false }
              else { a with bIsVaulting := false }) := by
  unfold NativeUpdateAnimation
  simp only [ha, hbound, hvault]
  cases a.bIsVaulting <;> simp

/-- A frame whose bound actor is vaulting and whose two slot lookups succeed returns: it
resolves the outputs from the interpolated FBIK state and runs `OnStartVault` exactly when
the previous frame was not vaulting. -/
theorem NativeUpdateAnimation_vaulting {F : Type} (env : AnimEnv F) (DeltaTime : ℚ)
    (a0 a : UVIACFAnimInstance F) (Character : AVICharacterBase) (RBone LBone : FVIBoneFBIKData)
    (ha : env.SuperNativeUpdateAnimation DeltaTime a0 = a)
    (hbound : a.Character = some Character) (hvault : Character.IsVaulting = true)
    (hR : env.GetBoneForFBIK a.RHandName (env.InterpolateFBIK DeltaTime a.FBIK) = some RBone)
    (hL : env.GetBoneForFBIK a.LHandName (env.InterpolateFBIK DeltaTime a.FBIK) = some LBone) :
    ∃ a2, NativeUpdateAnimation env DeltaTime a0 = some a2 ∧
      a2.bIsVaulting = true ∧ a2.Speed = 0 ∧
      a2.FBIK = env.InterpolateFBIK DeltaTime a.FBIK ∧
      a2.RHandLoc = RBone.Location ∧ a2.LHandLoc = LBone.Location ∧
      a2.bBothHand = (RBone.bEnabled && LBone.bEnabled) ∧
      a2.bRHand = (RBone.bEnabled && !LBone.bEnabled) ∧
      a2.bLHand = (LBone.bEnabled && !RBone.bEnabled) ∧
      a2.Calls = a.Calls ++ (if a.bIsVaulting = true then [] else [AnimCall.K2_OnStartVault]) := by
  unfold NativeUpdateAnimation
  simp only [ha, hbound, hvault, if_true]
  unfold ResolveFBIK
  simp only [hR, hL, Option.map_some']
  cases a.bIsVaulting <;> cases RBone.bEnabled <;> cases LBone.bEnabled <;>
    simp [OnStartVault, OnStopVault]

/-- C13. Edge detection of the animation driver, read in the state the superclass update
leaves.  With no bound actor the frame does nothing more.  With a bound actor that is not
vaulting the frame returns, never invokes the start hook, and invokes the stop hook exactly
when the previous frame was vaulting, after which `bRHand`, `bLHand` and `bBothHand` are all
false.  With a bound actor that is vaulting and both slot lookups succeeding the frame
returns, never invokes the stop hook, and invokes the start hook exactly when the previous
frame was not vaulting.  In each case at most one hook is invoked, and the frame records the
vaulting state for the next frame. -/
theorem C13_edge_detection {F : Type} (env : AnimEnv F) (DeltaTime : ℚ)
    (a0 a : UVIACFAnimInstance F)
    (ha : env.SuperNativeUpdateAnimation DeltaTime a0 = a) :
    (a.Character = none → NativeUpdateAnimation env DeltaTime a0 = some a) ∧
    (∀ Character, a.Character = some Character → Character.IsVaulting = false →
      ∃ a2, NativeUpdateAnimation env DeltaTime a0 = some a2 ∧
        a2.bIsVaulting = false ∧
        a2.Calls = a.Calls ++ (if a.bIsVaulting = true then [AnimCall.K2_OnStopVault] else []) ∧
        (a.bIsVaulting = true →
          a2.bRHand = false ∧ a2.bLHand = false ∧ a2.bBothHand = false)) ∧
    (∀ Character RBone LBone, a.Character = some Character → Character.IsVaulting = true →
      env.GetBoneForFBIK a.RHandName (env.InterpolateFBIK DeltaTime a.FBIK) = some RBone →
      env.GetBoneForFBIK a.LHandName (env.InterpolateFBIK DeltaTime a.FBIK) = some LBone →
      ∃ a2, NativeUpdateAnimation env DeltaTime a0 = some a2 ∧
        a2.bIsVaulting = true ∧
        a2.Calls
          = a.Calls ++ (if a.bIsVaulting = true then [] else [AnimCall.K2_OnStartVault])) := by
  refine ⟨?_, ?_, ?_⟩
  · intro h
    unfold NativeUpdateAnimation
    simp only [ha, h]
  · intro Character hbound hvault
    rw [NativeUpdateAnimation_not_vaulting env DeltaTime a0 a Character ha hbound hvault]
    cases hw : a.bIsVaulting <;> simp [OnStopVault]
  · intro Character RBone LBone hbound hvault hR hL
    obtain ⟨a2, h, hv, _, _, _, _, _, _, _, hcalls⟩ :=
      NativeUpdateAnimation_vaulting env DeltaTime a0 a Character RBone LBone ha hbound hvault
        hR hL
    exact ⟨a2, h, hv, hcalls⟩

/-- Witness of C13: the frame in which the sample actor has stopped vaulting invokes the stop
hook alone and clears the three outputs. -/
theorem C13_edge_detection_witness :
    ∃ a2, NativeUpdateAnimation sampleAnimEnv (1 / 60) sampleAnimStopping = some a2 ∧
      a2.bIsVaulting = false ∧
      a2.Calls = [AnimCall.K2_OnStopVault] ∧
      (sampleAnimStopping.bIsVaulting = true →
        a2.bRHand = false ∧ a2.bLHand = false ∧ a2.bBothHand = false) :=
  (C13_edge_detection sampleAnimEnv (1 / 60) sampleAnimStopping sampleAnimStopping rfl).2.1
    { IsVaulting := false } rfl rfl

/-- Counterexample to C16 as stated.  In the frame in which the bound actor has stopped
vaulting the actor is not vaulting, yet `bBothHand`, true before the frame, is false after it
(`OnStopVault`, line 78). -/
theorem C16_counterexample :
    sampleAnimStopping.Character = some { IsVaulting := false } ∧
    sampleAnimStopping.bBothHand = true ∧
    ∃ a2, NativeUpdateAnimation sampleAnimEnv (1 / 60) sampleAnimStopping = some a2 ∧
      a2.bBothHand = false :=
  ⟨rfl, rfl, _, rfl, rfl⟩

/-- C16 (amended). In every frame in which the bound actor is not vaulting,
`NativeUpdateAnimation` returns and performs no FBIK work: the FBIK state, `Speed`,
`RHandLoc` and `LHandLoc` keep the values the frame found, after the superclass update; the
enable outputs `bRHand`, `bLHand` and `bBothHand` keep their values when the previous frame
was not vaulting either, and are all false when the previous frame was vaulting. -/
theorem C16_not_vaulting_frame_retains {F : Type} (env : AnimEnv F) (DeltaTime : ℚ)
    (a0 a : UVIACFAnimInstance F) (Character : AVICharacterBase)
    (ha : env.SuperNativeUpdateAnimation DeltaTime a0 = a)
    (hbound : a.Character = some Character) (hvault : Character.IsVaulting = false) :
    ∃ a2, NativeUpdateAnimation env DeltaTime a0 = some a2 ∧
      a2.FBIK = a.FBIK ∧ a2.Speed = a.Speed ∧
      a2.RHandLoc = a.RHandLoc ∧ a2.LHandLoc = a.LHandLoc ∧
      (a.bIsVaulting = false →
        a2.bRHand = a.bRHand ∧ a2.bLHand = a.bLHand ∧ a2.bBothHand = a.bBothHand) ∧
      (a.bIsVaulting = true →
        a2.bRHand = false ∧ a2.bLHand = false ∧ a2.bBothHand = false) := by
  rw [NativeUpdateAnimation_not_vaulting env DeltaTime a0 a Character ha hbound hvault]
  cases hw : a.bIsVaulting <;> simp [OnStopVault]

/-- Witness of C16 (amended): an idle frame of the sample instance retains every output. -/
theorem C16_not_vaulting_frame_retains_witness :
    ∃ a2, NativeUpdateAnimation sampleAnimEnv (1 / 60) sampleAnimIdle = some a2 ∧
      a2.FBIK = sampleAnimIdle.FBIK ∧ a2.Speed = sampleAnimIdle.Speed ∧
      a2.RHandLoc = sampleAnimIdle.RHandLoc ∧ a2.LHandLoc = sampleAnimIdle.LHandLoc ∧
      (sampleAnimIdle.bIsVaulting = false →
        a2.bRHand = sampleAnimIdle.bRHand ∧ a2.bLHand = sampleAnimIdle.bLHand ∧
        a2.bBothHand = sampleAnimIdle.bBothHand) ∧
      (sampleAnimIdle.bIsVaulting = true →
        a2.bRHand = false ∧ a2.bLHand = false ∧ a2.bBothHand = false) :=
  C16_not_vaulting_frame_retains sampleAnimEnv (1 / 60) sampleAnimIdle sampleAnimIdle
    { IsVaulting := false } rfl rfl rfl

/-- C19. Resolved outputs of a vaulting frame, read in the state the superclass update
leaves.  When the bound actor is vaulting, the frame returns with `Speed = 0`, the FBIK state
interpolated by the frame time, and `RHandLoc` and `LHandLoc` equal to the locations of the
right-hand and left-hand slots of the interpolated state; when the two slots are not both
enabled, `bRHand` and `bLHand` equal the enabled flag of their own slot and `bBothHand` is
false. -/
theorem C19_vaulting_frame_outputs {F : Type} (env : AnimEnv F) (DeltaTime : ℚ)
    (a0 a : UVIACFAnimInstance F) (Character : AVICharacterBase) (RBone LBone : FVIBoneFBIKData)
    (ha : env.SuperNativeUpdateAnimation DeltaTime a0 = a)
    (hbound : a.Character = some Character) (hvault : Character.IsVaulting = true)
    (hR : env.GetBoneForFBIK a.RHandName (env.InterpolateFBIK DeltaTime a.FBIK) = some RBone)
    (hL : env.GetBoneForFBIK a.LHandName (env.InterpolateFBIK DeltaTime a.FBIK) = some LBone) :
    ∃ a2, NativeUpdateAnimation env DeltaTime a0 = some a2 ∧
      a2.Speed = 0 ∧
      a2.FBIK = env.InterpolateFBIK DeltaTime a.FBIK ∧
      a2.RHandLoc = RBone.Location ∧ a2.LHandLoc = LBone.Location ∧
      (¬ (RBone.bEnabled = true ∧ LBone.bEnabled = true) →
        a2.bRHand = RBone.bEnabled ∧ a2.bLHand = LBone.bEnabled ∧ a2.bBothHand = false) := by
  obtain ⟨a2, h, _, hs, hf, hrl, hll, hb, hr, hl, _⟩ :=
    NativeUpdateAnimation_vaulting env DeltaTime a0 a Character RBone LBone ha hbound hvault
      hR hL
  refine ⟨a2, h, hs, hf, hrl, hll, ?_⟩
  intro hnot
  rw [hb, hr, hl]
  cases hRe : RBone.bEnabled <;> cases hLe : LBone.bEnabled <;> simp_all

/-- Witness of C19: with the right hand slot enabled and the left hand slot disabled the
frame ends with the right hand output alone. -/
theorem C19_vaulting_frame_outputs_witness :
    ∃ a2, NativeUpdateAnimation sampleAnimEnv (1 / 60) sampleAnimRightOnly = some a2 ∧
      a2.Speed = 0 ∧
      a2.FBIK = sampleAnimRightOnly.FBIK ∧
      a2.RHandLoc = ⟨10, 20, 30⟩ ∧ a2.LHandLoc = ⟨10, -20, 30⟩ ∧
      (¬ (true = true ∧ false = true) →
        a2.bRHand = true ∧ a2.bLHand = false ∧ a2.bBothHand = false) :=
  C19_vaulting_frame_outputs sampleAnimEnv (1 / 60) sampleAnimRightOnly sampleAnimRightOnly
    { IsVaulting := true }
    { bEnabled := true, Location := ⟨10, 20, 30⟩ }
    { bEnabled := false, Location := ⟨10, -20, 30⟩ } rfl rfl rfl (by decide) (by decide)

/-- The vaulting block establishes the exclusion of composite and per-hand outputs whatever
the outputs were before. -/
theorem ResolveFBIK_BothHandExclusive {F : Type} (env : AnimEnv F) (DeltaTime : ℚ)
    (a a2 : UVIACFAnimInstance F) (h : ResolveFBIK env DeltaTime a = some a2) :
    BothHandExclusive a2 ∧ a2.bIsVaulting = a.bIsVaulting := by
  unfold ResolveFBIK at h
  simp only at h
  cases hR : env.GetBoneForFBIK a.RHandName (env.InterpolateFBIK DeltaTime a.FBIK) with
  | none => rw [hR] at h; cases h
  | some RBone =>
    cases hL : env.GetBoneForFBIK a.LHandName (env.InterpolateFBIK DeltaTime a.FBIK) with
    | none => rw [hR] at h; simp only [hL] at h; cases h
    | some LBone =>
      rw [hR] at h
      simp only [hL] at h
      unfold BothHandExclusive
      cases hRe : RBone.bEnabled <;> cases hLe : LBone.bEnabled <;>
        simp only [hRe, hLe] at h <;> simp at h <;> subst h <;> simp

/-- A frame preserves the exclusion of composite and per-hand outputs when the superclass
update does. -/
theorem NativeUpdateAnimation_BothHandExclusive {F : Type} (env : AnimEnv F)
    (hSuper : ∀ dt a, BothHandExclusive a →
      BothHandExclusive (env.SuperNativeUpdateAnimation dt a))
    (DeltaTime : ℚ) (a a2 : UVIACFAnimInstance F) (hinv : BothHandExclusive a)
    (h : NativeUpdateAnimation env DeltaTime a = some a2) : BothHandExclusive a2 := by
  have hS := hSuper DeltaTime a hinv
  unfold NativeUpdateAnimation at h
  simp only at h
  generalize env.SuperNativeUpdateAnimation DeltaTime a = b at h hS
  cases hc : b.Character with
  | none =>
    simp only [hc, Option.some.injEq] at h
    rw [← h]; exact hS
  | some Character =>
    simp only [hc] at h
    cases hv : Character.IsVaulting with
    | false =>
      simp only [hv, Bool.false_eq_true, if_false, Option.map_some', Option.some.injEq,
        Bool.false_and, Bool.not_false, Bool.and_true] at h
      rw [← h]
      cases hw : b.bIsVaulting
      · simpa [BothHandExclusive] using hS
      · simp [BothHandExclusive, OnStopVault]
    | true =>
      simp only [hv, if_true] at h
      generalize hr : ResolveFBIK env DeltaTime _ = r at h
      cases r with
      | none => cases h
      | some a3 =>
        obtain ⟨hinv3, hv3⟩ := ResolveFBIK_BothHandExclusive env DeltaTime _ a3 hr
        simp only [Option.map_some', Option.some.injEq] at h
        have hv3b : a3.bIsVaulting = true := hv3
        rw [← h]
        cases hw : b.bIsVaulting <;>
          simpa [hv3b, BothHandExclusive, OnStartVault] using hinv3

/-- C17. The exclusion of composite and per-hand outputs, `bBothHand` implies `bRHand = false`
and `bLHand = false`, is an invariant of the animation driver: `NativeUpdateAnimation` (for
any binding, vaulting state and FBIK state), `OnStartVault`, `OnStopVault` and `SetBoneFBIK`
each preserve it, provided the superclass update, whose code is outside the repository,
preserves it; so it holds after every run of these operations that starts with the three
outputs false. -/
theorem C17_BothHandExclusive_invariant {F : Type} (env : AnimEnv F)
    (hSuper : ∀ dt a, BothHandExclusive a →
      BothHandExclusive (env.SuperNativeUpdateAnimation dt a)) :
    (∀ (DeltaTime : ℚ) (a a2 : UVIACFAnimInstance F), BothHandExclusive a →
      NativeUpdateAnimation env DeltaTime a = some a2 → BothHandExclusive a2) ∧
    (∀ a : UVIACFAnimInstance F, BothHandExclusive a → BothHandExclusive (OnStartVault a)) ∧
    (∀ a : UVIACFAnimInstance F, BothHandExclusive (OnStopVault a)) ∧
    (∀ (BoneName : FName) (BoneLocation : FVector) (bEnabled : Bool)
       (a : UVIACFAnimInstance F), BothHandExclusive a →
      BothHandExclusive (SetBoneFBIK env BoneName BoneLocation bEnabled a)) ∧
    (∀ (ops : List AnimOp) (a a2 : UVIACFAnimInstance F),
      a.bRHand = false → a.bLHand = false → a.bBothHand = false →
      runAnimOps env ops a = some a2 → BothHandExclusive a2) := by
  have hframe := NativeUpdateAnimation_BothHandExclusive env hSuper
  have hop : ∀ (op : AnimOp) (a a2 : UVIACFAnimInstance F), BothHandExclusive a →
      applyAnimOp env op a = some a2 → BothHandExclusive a2 := by
    intro op a a2 hinv h
    cases op with
    | NativeUpdateAnimation dt c =>
      exact hframe dt { a with Character := c } a2 hinv h
    | OnStartVault =>
      simp only [applyAnimOp, Option.some.injEq] at h
      rw [← h]; exact hinv
    | OnStopVault =>
      simp only [applyAnimOp, Option.some.injEq] at h
      rw [← h]; simp [BothHandExclusive, OnStopVault]
    | SetBoneFBIK n l b =>
      simp only [applyAnimOp, Option.some.injEq] at h
      rw [← h]; exact hinv
  have hrun : ∀ (ops : List AnimOp) (a a2 : UVIACFAnimInstance F), BothHandExclusive a →
      runAnimOps env ops a = some a2 → BothHandExclusive a2 := by
    intro ops
    induction ops with
    | nil =>
      intro a a2 hinv h
      simp only [runAnimOps, Option.some.injEq] at h
      rw [← h]; exact hinv
    | cons op ops ih =>
      intro a a2 hinv h
      simp only [runAnimOps] at h
      cases hstep : applyAnimOp env op a with
      | none => rw [hstep] at h; cases h
      | some a1 =>
        rw [hstep] at h
        exact ih a1 a2 (hop op a a1 hinv hstep) h
  refine ⟨hframe, fun a hinv => hinv, fun a => by simp [BothHandExclusive, OnStopVault],
    fun _ _ _ a hinv => hinv, ?_⟩
  intro ops a a2 hR hL hB h
  exact hrun ops a a2 (by simp [BothHandExclusive, hR, hL, hB]) h

/-- Witness of C17: the sample run, started with the three outputs false, returns in a state
that satisfies the exclusion. -/
theorem C17_BothHandExclusive_invariant_witness :
    ∃ a2, runAnimOps sampleAnimEnv sampleAnimRun sampleAnimIdle = some a2 ∧
      BothHandExclusive a2 :=
  ⟨_, rfl,
   (C17_BothHandExclusive_invariant sampleAnimEnv (fun _ _ h => h)).2.2.2.2
     sampleAnimRun sampleAnimIdle _ rfl rfl rfl rfl⟩

/-! ## Absent collaborators -/

/-- `OnRep_MotionMatch` fails exactly when the motion warping component is absent. -/
theorem OnRep_MotionMatch_eq_none_iff (s : AVIACFCharacter) :
    OnRep_MotionMatch s = none ↔ s.MotionWarping = none := by
  unfold OnRep_MotionMatch
  cases s.MotionWarping <;> simp

/-- C18 (defect). On the sample simulated proxy with every collaborator absent,
`OnRep_MotionMatch` dereferences the null `MotionWarping` pointer (line 181) while the other
operations fall back: `IsVaulting` and `CanVault` to false, `GetVaultDirection` to the forward
vector, `IsWalkable` to false, `Jump` and `StopJumping` to the superclass call alone,
`StartVaultAbility` to no change, `StopVaultAbility` to the notification alone and
`CheckJumpInput` to the superclass step. -/
theorem C18_OnRep_MotionMatch_null_dereference :
    sampleNoCollaborators.MotionWarping = none ∧
    OnRep_MotionMatch sampleNoCollaborators = none ∧
    IsVaulting sampleNoCollaborators = false ∧
    CanVault sampleNoCollaborators = false ∧
    GetVaultDirection sampleNoCollaborators = sampleNoCollaborators.ActorForwardVector ∧
    IsWalkable (fun _ (_ : Unit) => true) sampleNoCollaborators () = false ∧
    (Jump sampleJumpEnv sampleNoCollaborators).Calls = [CollaboratorCall.Super_Jump] ∧
    (StopJumping sampleJumpEnv sampleNoCollaborators).Calls
      = [CollaboratorCall.Super_StopJumping] ∧
    StartVaultAbility sampleNoCollaborators = sampleNoCollaborators ∧
    StopVaultAbility sampleNoCollaborators = OnStopVaultAbility sampleNoCollaborators ∧
    (CheckJumpInput sampleCharacterEnv (1 / 60) sampleNoCollaborators).final
      = sampleNoCollaborators :=
  ⟨rfl, rfl, rfl, rfl, rfl, rfl, rfl, rfl, rfl, rfl, rfl⟩

end VIACFBridge
